import Mathlib

/-!
Verification development for the nba-watchability scoring pipeline.

The numeric code is modelled over exact arithmetic: the float computations of
`core/watchability.py` (which use real powers) are embedded over `ℝ` with
`Real.rpow`, and the purely field/order-arithmetic modules
(`core/health_espn.py`, `core/build_watchability_df.py`, `core/http_cache.py`)
are embedded over `ℚ` so that every definition is executable and decidable.
String handling mirrors Python semantics (`strip`/`lower`/`upper`/substring
membership).
-/

/-! ## core/watchability_v2_params.py -/

def SIGMA : ℝ := 0.4

def INJURY_WEIGHT_AVAILABLE : ℚ := 0
def INJURY_WEIGHT_QUESTIONABLE : ℚ := 0.4
def INJURY_WEIGHT_DOUBTFUL : ℚ := 0.7
def INJURY_WEIGHT_OUT : ℚ := 1
def INJURY_OVERALL_IMPORTANCE_WEIGHT : ℚ := 0.6
def KEY_INJURY_IMPACT_SHARE_THRESHOLD : ℚ := 0.1

/-! ## core/watchability.py : constants -/

def SPREAD_CAP : ℝ := 15
def SPREAD_MIN : ℝ := 0.5
def WIN_MAX : ℝ := 0.7
def WIN_MIN : ℝ := 0.2
def RELATIVE_QUALITY_MULTIPLIER : ℝ := 0.7
def CLOSENESS_CURVATURE : ℝ := 0.9
def QUALITY_FLOOR : ℝ := 0.1
def CLOSENESS_FLOOR : ℝ := 0.1
def COMPONENT_CAP : ℝ := 1.0

/-! ## core/watchability.py : functions -/

noncomputable def clamp01 (x : ℝ) : ℝ := max 0 (min 1 x)

noncomputable def clamp01_floor (x floor : ℝ) : ℝ := max floor (min 1 x)

/-- `team_quality(w1, w2)` with the default parameters expanded at the call
sites (the Python defaults are `QUALITY_FLOOR`, `WIN_MAX`, `WIN_MIN`). -/
noncomputable def team_quality (w1 w2 floor win_max win_min : ℝ) : ℝ :=
  clamp01_floor ((0.5 * (w1 + w2) - win_min) / (win_max - win_min)) floor

/-- `closeness(abs_spread)`; `none` models Python `None`. -/
noncomputable def closeness (abs_spread : Option ℝ)
    (cap spread_min floor closeness_curvature : ℝ) : ℝ :=
  if cap ≤ 0 then floor
  else
    match abs_spread with
    | none => floor
    | some s =>
        clamp01_floor (((cap - min s cap) / (cap - spread_min)) ^ closeness_curvature) floor

/-- Clamped quality component used inside `uavg` (line 83 of watchability.py). -/
noncomputable def clampQ (team_quality_ : ℝ) : ℝ :=
  min (clamp01_floor team_quality_ QUALITY_FLOOR) COMPONENT_CAP

/-- Clamped closeness component used inside `uavg` (line 84 of watchability.py). -/
noncomputable def clampC (closeness_ : ℝ) : ℝ :=
  min (clamp01_floor closeness_ CLOSENESS_FLOOR) COMPONENT_CAP

/-- CES utility `uavg(team_quality_, closeness_, sigma, relative_quality_multiplier)`. -/
noncomputable def uavg (team_quality_ closeness_ sigma relative_quality_multiplier : ℝ) : ℝ :=
  let q := clampQ team_quality_
  let c := clampC closeness_
  if sigma = 0 then min q c
  else
    let rho := (sigma - 1) / sigma
    if rho = 0 then (q * c) ^ ((1 : ℝ) / 2)
    else (relative_quality_multiplier * q ^ rho
          + (1 - relative_quality_multiplier) * c ^ rho) ^ ((1 : ℝ) / rho)

/-- `awi(team_quality_, closeness_) = 100 * uavg(...)` with defaults. -/
noncomputable def awi (team_quality_ closeness_ : ℝ) : ℝ :=
  100 * uavg team_quality_ closeness_ SIGMA RELATIVE_QUALITY_MULTIPLIER

noncomputable def awi_label (awi_ : ℝ) : String :=
  if 90 ≤ awi_ then "Must Watch"
  else if 75 ≤ awi_ then "Strong Watch"
  else if 50 ≤ awi_ then "Watchable"
  else if 25 ≤ awi_ then "Skippable"
  else "Hard Skip"

structure Watchability where
  team_quality : ℝ
  closeness : ℝ
  uavg : ℝ
  awi : ℝ
  label : String

/-- `compute_watchability(w1, w2, abs_spread, sigma=SIGMA)`. -/
noncomputable def compute_watchability (w1 w2 : ℝ) (abs_spread : Option ℝ) (sigma : ℝ) :
    Watchability :=
  let q := team_quality w1 w2 QUALITY_FLOOR WIN_MAX WIN_MIN
  let c := closeness abs_spread SPREAD_CAP SPREAD_MIN CLOSENESS_FLOOR CLOSENESS_CURVATURE
  let u := uavg q c sigma RELATIVE_QUALITY_MULTIPLIER
  ⟨q, c, u, 100 * u, awi_label (100 * u)⟩

/-! ## Python string primitives

`pyLower`/`pyUpper` model `str.lower()`/`str.upper()` (ASCII case mapping, the
only case relevant to the status strings involved), `pyStrip` models
`str.strip()`, and `pyContains hay needle` models Python's `needle in hay`
substring test. -/

def leadsWith : List Char → List Char → Bool
  | [], _ => true
  | _ :: _, [] => false
  | a :: as, b :: bs => a == b && leadsWith as bs

def occursIn (needle : List Char) : List Char → Bool
  | [] => leadsWith needle []
  | b :: bs => leadsWith needle (b :: bs) || occursIn needle bs

def isPySpace (c : Char) : Bool :=
  c == ' ' || c == '\t' || c == '\n' || c == '\r' || c == '\x0b' || c == '\x0c'

def pyLower (s : String) : String := String.mk (s.data.map Char.toLower)

def pyUpper (s : String) : String := String.mk (s.data.map Char.toUpper)

def pyStrip (s : String) : String :=
  String.mk (((s.data.dropWhile isPySpace).reverse.dropWhile isPySpace).reverse)

def pyContains (hay needle : String) : Bool := occursIn needle.data hay.data

/-- Python `a or b` on optional strings: the first operand is kept when it is
a truthy (non-empty) string, otherwise the second is used. -/
def pyOrStr (a b : Option String) : Option String :=
  match a with
  | some s => if s ≠ "" then some s else b
  | none => b

/-! ## core/health_espn.py : `_injury_weight` -/

def GTD_SET : List String :=
  ["gtd", "dtd", "day-to-day", "day to day", "game-time decision", "game time decision"]

/-- `_injury_weight(status)` of core/health_espn.py (lines 59-77). -/
def injury_weight (status : String) : ℚ :=
  let s := pyLower (pyStrip status)
  if s = "" then INJURY_WEIGHT_AVAILABLE
  else if pyContains s "injur" then INJURY_WEIGHT_OUT
  else if pyContains s "out" then INJURY_WEIGHT_OUT
  else if pyContains s "doubt" then INJURY_WEIGHT_DOUBTFUL
  else if pyContains s "question" then INJURY_WEIGHT_QUESTIONABLE
  else if s ∈ GTD_SET then INJURY_WEIGHT_QUESTIONABLE
  else if pyContains s "prob" then INJURY_WEIGHT_AVAILABLE
  else if pyContains s "active" || pyContains s "available" || pyContains s "probable" then
    INJURY_WEIGHT_AVAILABLE
  else INJURY_WEIGHT_AVAILABLE

/-! ## core/build_watchability_df.py : status display normalisation and the
league-feed fantasy abbreviation parser -/

/-- `_normalize_status_for_display(status)` (lines 122-132). -/
def normalize_status_for_display (status : Option String) : String :=
  let s := pyStrip (status.getD "")
  if s = "" then "Available"
  else if pyUpper s = "OUT" then "Out"
  else if pyUpper s = "GTD" then "GTD"
  else if pyLower s ∈ ["day-to-day", "day to day", "daytoday", "dtd"] then "GTD"
  else s

/-- The `details.fantasyStatus` sub-object of a league-feed injury entry. -/
structure FantasyStatus where
  abbreviation : Option String
  description : Option String
  displayDescription : Option String

/-- The `details` sub-object of a league-feed injury entry. -/
structure InjuryDetails where
  fantasyStatus : Option FantasyStatus
  type : Option String

/-- A league-feed injury entry, as consumed by `_parse_fantasy_abbr`. -/
structure InjuryRecord where
  details : Option InjuryDetails
  status : Option String

/-- `_parse_fantasy_abbr(inj)` (lines 267-289): fantasy abbreviation when
present, then description, then `details.type`, then the top-level status;
when none of these yields a non-empty string the entry defaults to `"GTD"`. -/
def parse_fantasy_abbr (inj : InjuryRecord) : String :=
  let fromDetails : Option String :=
    match inj.details with
    | none => none
    | some d =>
        let fromFantasy : Option String :=
          match d.fantasyStatus with
          | none => none
          | some f =>
              if pyStrip (f.abbreviation.getD "") ≠ "" then
                some (pyUpper (pyStrip (f.abbreviation.getD "")))
              else
                match pyOrStr f.description f.displayDescription with
                | some desc =>
                    if pyStrip desc ≠ "" then
                      some (pyUpper (normalize_status_for_display (some (pyStrip desc))))
                    else none
                | none => none
        match fromFantasy with
        | some r => some r
        | none =>
            match d.type with
            | some t =>
                if pyStrip t ≠ "" then
                  some (pyUpper (normalize_status_for_display (some (pyStrip t))))
                else none
            | none => none
  match fromDetails with
  | some r => r
  | none =>
      match inj.status with
      | some st => if pyStrip st ≠ "" then pyUpper (normalize_status_for_display (some st)) else "GTD"
      | none => "GTD"

/-- `_weight_for_abbr_with_short_comment(abbr, short_comment, target_dow)`
(lines 941-961): OUT/OFS are hard outs, any other non-GTD label counts as
available, and the ambiguous GTD label is refined from the short comment only
when the comment mentions the target day of week. -/
def weight_for_abbr_with_short_comment
    (abbr short_comment target_dow : Option String) : ℚ :=
  let a := pyUpper (pyStrip (abbr.getD ""))
  if a = "" then injury_weight "Available"
  else if a = "OUT" ∨ a = "OFS" then injury_weight "Out"
  else if a ≠ "GTD" then injury_weight "Available"
  else
    let sc := short_comment.getD ""
    let scL := pyLower sc
    let dow := pyLower (pyStrip (target_dow.getD ""))
    let inferred :=
      if dow ≠ "" ∧ pyContains scL dow = true then
        if pyContains scL "probable" then "Probable"
        else if pyContains scL "doubtful" then "Doubtful"
        else if pyContains scL "questionable" then "Questionable"
        else "Questionable"
      else "Questionable"
    injury_weight inferred

/-! ## core/health_espn.py : player impacts (`compute_team_player_impacts`) -/

/-- A roster entry together with the outcome of the per-athlete stats fetch
(`fetch_athlete_per_game_stats`); `Except.error` models an exception from the
fetch (caught by `continue`), and each stat is `none` when absent from the
payload. -/
structure RosterEntry where
  athlete_id : String
  name : String
  roster_status : Option String
  stats : Except Unit (Option ℚ × Option ℚ × Option ℚ × Option ℚ × Option ℚ)

/-- One tuple of the `impacts_raw` list built in `compute_team_player_impacts`. -/
structure RawImpact where
  athlete_id : String
  name : String
  pts : ℚ
  ast : ℚ
  reb : ℚ
  stl : ℚ
  blk : ℚ
  raw : ℚ
  status : String

/-- The `PlayerImpact` dataclass of core/health_espn.py. -/
structure PlayerImpact where
  athlete_id : String
  name : String
  points_per_game : ℚ
  assists_per_game : ℚ
  rebounds_per_game : ℚ
  steals_per_game : ℚ
  blocks_per_game : ℚ
  raw_impact : ℚ
  impact_share : ℚ
  relative_raw_impact : ℚ
  injury_status : String
  injury_weight : ℚ

/-- The `impacts_raw` accumulation loop (lines 235-253): players whose stats
fetch failed, or whose five per-game stats are all absent, are skipped;
otherwise absent individual stats are zero-filled and
`raw = pts + ast + reb`. -/
def impacts_raw (roster : List RosterEntry) : List RawImpact :=
  roster.filterMap (fun r =>
    match r.stats with
    | .error _ => none
    | .ok (pts, ast, reb, stl, blk) =>
        if pts = none ∧ ast = none ∧ reb = none ∧ stl = none ∧ blk = none then none
        else
          some
            { athlete_id := r.athlete_id
              name := r.name
              pts := pts.getD 0
              ast := ast.getD 0
              reb := reb.getD 0
              stl := stl.getD 0
              blk := blk.getD 0
              raw := pts.getD 0 + ast.getD 0 + reb.getD 0
              status :=
                match r.roster_status with
                | some s => if s ≠ "" then s else "Available"
                | none => "Available" })

def sum_raw (l : List RawImpact) : ℚ := (l.map (fun t => t.raw)).sum

def max_raw (l : List RawImpact) : ℚ := ((l.map (fun t => t.raw)).max?).getD 0

/-- `compute_team_player_impacts` (lines 207-286), after the roster and stats
fetches have been resolved.  The final `players.sort(key=raw_impact,
reverse=True)` (a stable descending sort) is modelled by a stable insertion
sort on the same key. -/
def compute_team_player_impacts (roster : List RosterEntry) : List PlayerImpact :=
  if roster.isEmpty then []
  else
    let ir := impacts_raw roster
    if ir.isEmpty then []
    else
      let s := sum_raw ir
      let m := max_raw ir
      if s ≤ 0 ∨ m ≤ 0 then []
      else
        let players := ir.map (fun t =>
          ({ athlete_id := t.athlete_id
             name := t.name
             points_per_game := t.pts
             assists_per_game := t.ast
             rebounds_per_game := t.reb
             steals_per_game := t.stl
             blocks_per_game := t.blk
             raw_impact := t.raw
             impact_share := if s ≠ 0 then t.raw / s else 0
             relative_raw_impact := if m ≠ 0 then t.raw / m else 0
             injury_status := t.status
             injury_weight := injury_weight t.status } : PlayerImpact))
        List.insertionSort (fun a b => b.raw_impact ≤ a.raw_impact) players

/-! ## core/build_watchability_df.py : team health from the merged injury map -/

def clamp01Q (x : ℚ) : ℚ := max 0 (min 1 x)

/-- Association-list lookup with Python `dict.get` semantics (the lists stand
for dicts, so keys are the dict's keys). -/
def alookup {β : Type} (l : List (String × β)) (k : String) : Option β :=
  (l.find? (fun p => p.1 == k)).map (fun p => p.2)

/-- `_normalize_player_name(name)` (lines 135-149).  The character class of
the substitution regex is written `[^a-z0-9\\s]` with a doubled backslash, so
the kept characters are lowercase letters, digits, the backslash and the
letter `s` (subsumed by `a-z`); everything else becomes a space. -/
def keepNormChar (ch : Char) : Bool :=
  (decide ('a' ≤ ch) && decide (ch ≤ 'z')) || (decide ('0' ≤ ch) && decide (ch ≤ '9')) ||
    ch == '\\' || ch == 's'

def wordsAux (cur : List Char) : List Char → List String
  | [] => if cur.isEmpty then [] else [String.mk cur.reverse]
  | c :: cs =>
      if c == ' ' then
        if cur.isEmpty then wordsAux [] cs
        else String.mk cur.reverse :: wordsAux [] cs
      else wordsAux (c :: cur) cs

def normalize_player_name (name : String) : String :=
  let n := pyLower (pyStrip name)
  if n = "" then ""
  else
    let n2 := n.data.map (fun ch => if keepNormChar ch then ch else ' ')
    let parts := (wordsAux [] n2).filter (fun p => p ∉ ["jr", "sr", "ii", "iii", "iv", "v"])
    String.intercalate " " parts

/-- One value of the `detail_by_id` map built by
`_load_espn_league_injuries_by_team` (lines 318-324). -/
structure InjDetail where
  abbr : String
  name : String
  shortComment : String
  longComment : String

/-- `impact_by_id` lookup: the Python dict comprehension keeps the last
player for a duplicated athlete id, hence the reversed search. -/
def find_by_id (players : List PlayerImpact) (pid : String) : Option PlayerImpact :=
  players.reverse.find? (fun p => p.athlete_id == pid)

/-- `impact_by_norm_name` lookup (players with an empty normalised name are
not keyed; the dict keeps the last entry per key). -/
def find_by_norm_name (players : List PlayerImpact) (key : String) : Option PlayerImpact :=
  ((players.filter (fun p => normalize_player_name p.name ≠ "")).reverse).find?
    (fun p => normalize_player_name p.name == key)

/-- The per-entry player resolution of `_team_key_injuries_and_health`
(lines 1029-1031): by athlete id first, then by normalised display name. -/
def resolve_impact (players : List PlayerImpact) (pid injName : String) : Option PlayerImpact :=
  match find_by_id players pid with
  | some p => some p
  | none => if injName ≠ "" then find_by_norm_name players (normalize_player_name injName) else none

/-- The penalty contribution of one merged-map entry `(pid, status)`
(lines 1016-1050): weight times impact share when the entry resolves to a
roster player, `0` otherwise. -/
def entry_contrib (players : List PlayerImpact) (detailById : List (String × InjDetail))
    (dow : Option String) (e : String × String) : ℚ :=
  let stNorm := pyUpper (normalize_status_for_display (some e.2))
  let det := alookup detailById e.1
  let sc : Option String := det.map (fun d => d.shortComment)
  let injName := (det.map (fun d => d.name)).getD ""
  let w := weight_for_abbr_with_short_comment (some stNorm) sc dow
  match resolve_impact players e.1 injName with
  | none => 0
  | some p => w * p.impact_share

/-- The `penalty` accumulation loop of `_team_key_injuries_and_health`. -/
def injury_penalty (players : List PlayerImpact) (detailById : List (String × InjDetail))
    (dow : Option String) (byTeam : List (String × String)) : ℚ :=
  byTeam.foldl (fun acc e => acc + entry_contrib players detailById dow e) 0

/-- The health value computed by `_team_key_injuries_and_health`
(lines 998-1068): `1.0` outright for an empty merged map, otherwise
`clamp01(1 - INJURY_OVERALL_IMPORTANCE_WEIGHT * penalty)`.  (The key-injury
string and detail JSON outputs of the Python function are presentation-only
and not modelled.) -/
def team_health (players : List PlayerImpact) (detailById : List (String × InjDetail))
    (dow : Option String) (byTeam : List (String × String)) : ℚ :=
  if byTeam = [] then 1
  else clamp01Q (1 - INJURY_OVERALL_IMPORTANCE_WEIGHT * injury_penalty players detailById dow byTeam)

/-- The health value computed by `compute_team_health` of core/health_espn.py
(lines 427-498), after all feeds are resolved: `status_of` gives each athlete
the status obtained from the roster/injury-map/refinement chain, and the
penalty sums `injury_weight(status) * impact_share` over the team's impact
list.  Empty impact lists short-circuit to `1.0`. -/
def compute_team_health_value (impacts : List PlayerImpact) (status_of : String → String) : ℚ :=
  if impacts.isEmpty then 1
  else
    clamp01Q (1 - INJURY_OVERALL_IMPORTANCE_WEIGHT *
      (impacts.map (fun p => injury_weight (status_of p.athlete_id) * p.impact_share)).sum)

/-! ## core/build_watchability_df.py : live spread blending -/

/-- `_live_weight_a(minutes_remaining)` (lines 73-84). -/
def live_weight_a (minutes_remaining : Option ℚ) : ℚ :=
  match minutes_remaining with
  | none => 0
  | some t => max 0 (min 1 (1 - t / 48))

/-- `_effective_spread_row(r)` (lines 812-831) on the row fields it reads:
the current home spread, the frozen close, the game status and the `a(t)`
column value. -/
def effective_spread_row (status : String) (cur close : Option ℚ) (a_t : ℚ) : Option ℚ :=
  match cur with
  | none => none
  | some cf =>
      if pyLower status ≠ "in" then some cf
      else
        match close with
        | none => some cf
        | some clf =>
            let a := max 0 (min 1 a_t)
            some (a * cf + (1 - a) * clf)

/-! ## core/build_watchability_df.py : the game-clock regex

`_parse_time_remaining` (lines 45-61) searches the raw clock text for the
pattern written in the source as the raw string `r"(\\d{1,2})[:.](\\d{1,2})\\s*Q(\\d)"`.
Because the backslashes are doubled inside a raw string, each `\\` is an
escaped literal backslash and the following `d`/`s` are literal letters: a
match requires a literal backslash followed by one or two letters `d`, then
`:` or `.`, another backslash and `d`s, a backslash, a run of letters `s`,
the letter `Q`, and a final backslash-`d`.  The matcher below implements
exactly this token sequence with the greedy/backtracking choice for `d{1,2}`.
On any successful match each captured group starts with a backslash, so the
subsequent `int(m.group(...))` calls raise an uncaught `ValueError`, modelled
as `Except.error`. -/

def matchTail3 : List Char → Option (List Char)
  | '\\' :: 'd' :: r => some r
  | _ => none

def matchQtoken : List Char → Option (List Char)
  | 'Q' :: r => matchTail3 r
  | _ => none

def sStarThenQ : List Char → Option (List Char)
  | 's' :: r => (sStarThenQ r).orElse (fun _ => matchQtoken ('s' :: r))
  | r => matchQtoken r

def matchD12 (l : List Char) (k : List Char → Option (List Char)) : Option (List Char) :=
  match l with
  | '\\' :: 'd' :: 'd' :: r => (k r).orElse (fun _ => k ('d' :: r))
  | '\\' :: 'd' :: r => k r
  | _ => none

def matchColonDot (l : List Char) (k : List Char → Option (List Char)) : Option (List Char) :=
  match l with
  | ':' :: r => k r
  | '.' :: r => k r
  | _ => none

def matchAt (l : List Char) : Option (List Char) :=
  matchD12 l (fun r1 =>
    matchColonDot r1 (fun r2 =>
      matchD12 r2 (fun r3 =>
        match r3 with
        | '\\' :: r4 => sStarThenQ r4
        | _ => none)))

def regexSearch : List Char → Bool
  | [] => (matchAt []).isSome
  | c :: r => (matchAt (c :: r)).isSome || regexSearch r

/-- `_parse_time_remaining(tr)` (lines 45-61). -/
def parse_time_remaining (tr : Option String) : Except Unit (Option ℕ × Option ℕ) :=
  match tr with
  | none => Except.ok (none, none)
  | some t =>
      let s := pyUpper (pyStrip t)
      if s = "" then Except.ok (none, none)
      else if regexSearch s.data then Except.error ()
      else Except.ok (none, none)

/-- `_minutes_remaining_from_time_remaining(tr)` (lines 64-70). -/
def minutes_remaining_from_time_remaining (tr : Option String) : Except Unit (Option ℚ) :=
  match parse_time_remaining tr with
  | Except.error e => Except.error e
  | Except.ok (someQ, someSec) =>
      match someQ, someSec with
      | some q, some sec =>
          Except.ok (some (((max 0 (4 - (q : ℤ)) : ℤ) : ℚ) * 12 + (sec : ℚ) / 60))
      | _, _ => Except.ok none

/-! ## core/build_watchability_df.py : closing-spread store -/

/-- A row of the build dataframe, restricted to the columns read by the
close-spread logic. -/
structure BuildRow where
  game_id : String
  status : String
  home_spread : Option ℚ

/-- Python dict assignment `store[gid] = v`. -/
def store_set (store : List (String × ℚ)) (k : String) (v : ℚ) : List (String × ℚ) :=
  (store.filter (fun p => p.1 ≠ k)) ++ [(k, v)]

/-- One iteration of the close-store write loop (lines 775-788): the store is
written only for a non-empty game id whose row status is `pre` and whose
current home spread is present. -/
def close_store_step (store : List (String × ℚ)) (r : BuildRow) : List (String × ℚ) :=
  let gid := pyStrip r.game_id
  if gid = "" then store
  else if pyLower r.status ≠ "pre" then store
  else
    match r.home_spread with
    | none => store
    | some s => store_set store gid s

/-- One full batch pass of the write loop over the dataframe rows. -/
def close_store_pass (store : List (String × ℚ)) (rows : List BuildRow) : List (String × ℚ) :=
  rows.foldl close_store_step store

/-- `_close_spread_row(r)` (lines 793-806): the authoritative ESPN close
overrides the locally frozen store value, which in turn overrides the current
spread. -/
def close_spread_row (espn store : List (String × ℚ)) (r : BuildRow) : Option ℚ :=
  let gid := pyStrip r.game_id
  let cur := r.home_spread
  if gid ≠ "" ∧ (alookup espn gid).isSome = true then alookup espn gid
  else if gid = "" then cur
  else
    match alookup store gid with
    | none => cur
    | some v => some v

/-! ## core/http_cache.py : `get_json_cached` -/

/-- A well-formed on-disk cache file `{"_ts": ts, "data": data}` as written by
`_write_json`; a missing or corrupt file reads as `none`. -/
structure CacheEntry (α : Type) where
  ts : ℚ
  data : α

/-- The `CachedResponse` dataclass. -/
structure CachedResponse (α : Type) where
  url : String
  data : α
  from_cache : Bool

/-- `get_json_cached` (lines 54-84) over one cache key: `cached` is the entry
read from disk, `fetch` the outcome of `requests.get` (+ `raise_for_status`
and JSON decoding), and the result carries the response together with the
cache state left on disk.  An exception escapes only from the final
`raise`. -/
def get_json_cached {α : Type} (url : String) (cached : Option (CacheEntry α))
    (now ttl_seconds : ℚ) (fetch : Except Unit α) :
    Except Unit (CachedResponse α × Option (CacheEntry α)) :=
  match cached with
  | some e =>
      if now - e.ts ≤ ttl_seconds then Except.ok (⟨url, e.data, true⟩, some e)
      else
        match fetch with
        | Except.ok d => Except.ok (⟨url, d, false⟩, some ⟨now, d⟩)
        | Except.error _ => Except.ok (⟨url, e.data, true⟩, some e)
  | none =>
      match fetch with
      | Except.ok d => Except.ok (⟨url, d, false⟩, some ⟨now, d⟩)
      | Except.error e => Except.error e

/-! ## Spec-side definitions used to state the claims -/

/-- Whether the short comment mentions the target game's day of week, exactly
as tested on line 954 of build_watchability_df.py. -/
def comment_mentions_dow (sc dow : Option String) : Bool :=
  let scL := pyLower (sc.getD "")
  let d := pyLower (pyStrip (dow.getD ""))
  decide (d ≠ "") && pyContains scL d

/-- The probable/doubtful/questionable keyword scan of the short comment
(lines 955-960). -/
def comment_keyword_status (sc : Option String) : String :=
  let scL := pyLower (sc.getD "")
  if pyContains scL "probable" then "Probable"
  else if pyContains scL "doubtful" then "Doubtful"
  else if pyContains scL "questionable" then "Questionable"
  else "Questionable"

/-- The spec's health formula: `clamp01(1 - w * Σ weight(status) * share)`
with the sum running over the merged injury map. -/
def health_spec (players : List PlayerImpact) (detailById : List (String × InjDetail))
    (dow : Option String) (byTeam : List (String × String)) : ℚ :=
  clamp01Q (1 - INJURY_OVERALL_IMPORTANCE_WEIGHT *
    ((byTeam.map (entry_contrib players detailById dow)).sum))

/-- A roster entry whose stats fetch succeeded with at least one reported
per-game stat (the entries kept by the `impacts_raw` loop). -/
def has_reported_stats (r : RosterEntry) : Bool :=
  match r.stats with
  | Except.error _ => false
  | Except.ok (pts, ast, reb, stl, blk) =>
      !(decide (pts = none) && decide (ast = none) && decide (reb = none) &&
        decide (stl = none) && decide (blk = none))


/-- The weight resolved for one merged-map entry `(pid, status)`, as computed
inside the `_team_key_injuries_and_health` loop (lines 1018-1027). -/
def entry_weight (detailById : List (String × InjDetail)) (dow : Option String)
    (e : String × String) : ℚ :=
  weight_for_abbr_with_short_comment (some (pyUpper (normalize_status_for_display (some e.2))))
    ((alookup detailById e.1).map (fun d => d.shortComment)) dow


/-! ## Theorems -/

/-- Unfolding equation of `get_json_cached` for a present cache entry. -/
theorem get_json_cached_some {α : Type} (url : String) (e : CacheEntry α) (now ttl : ℚ)
    (fetch : Except Unit α) :
    get_json_cached url (some e) now ttl fetch =
      if now - e.ts ≤ ttl then Except.ok (⟨url, e.data, true⟩, some e)
      else
        match fetch with
        | Except.ok d => Except.ok (⟨url, d, false⟩, some ⟨now, d⟩)
        | Except.error _ => Except.ok (⟨url, e.data, true⟩, some e) := rfl

/-- Unfolding equation of `get_json_cached` for a missing cache entry. -/
theorem get_json_cached_none {α : Type} (url : String) (now ttl : ℚ)
    (fetch : Except Unit α) :
    get_json_cached url none now ttl fetch =
      match fetch with
      | Except.ok d => Except.ok (⟨url, d, false⟩, some ⟨now, d⟩)
      | Except.error e => Except.error e := rfl

/-- C10: for every cached fetch, a cache entry within its TTL is returned
without consulting the fetch at all; a failed fetch falls back to any existing
cached entry regardless of its age; and an exception propagates exactly when
the fetch fails and no cached entry exists. -/
theorem claim_C10 {α : Type} (url : String) (e : CacheEntry α) (cached : Option (CacheEntry α))
    (now ttl : ℚ) (fetch fetch' : Except Unit α) :
    (now - e.ts ≤ ttl →
      get_json_cached url (some e) now ttl fetch = Except.ok (⟨url, e.data, true⟩, some e) ∧
      get_json_cached url (some e) now ttl fetch = get_json_cached url (some e) now ttl fetch') ∧
    get_json_cached url (some e) now ttl (Except.error ()) =
      Except.ok (⟨url, e.data, true⟩, some e) ∧
    ((∃ err, get_json_cached url cached now ttl fetch = Except.error err) ↔
      cached = none ∧ fetch = Except.error ()) := by
  refine ⟨fun h => ⟨by rw [get_json_cached_some, if_pos h],
      by rw [get_json_cached_some, if_pos h, get_json_cached_some, if_pos h]⟩, ?_, ?_, ?_⟩
  · by_cases h : now - e.ts ≤ ttl
    · rw [get_json_cached_some, if_pos h]
    · rw [get_json_cached_some, if_neg h]
  · rintro ⟨err, herr⟩
    cases cached with
    | some e2 =>
        exfalso
        by_cases h : now - e2.ts ≤ ttl
        · rw [get_json_cached_some, if_pos h] at herr
          exact Except.noConfusion herr
        · cases fetch with
          | ok d =>
              rw [get_json_cached_some, if_neg h] at herr
              exact Except.noConfusion herr
          | error e3 =>
              rw [get_json_cached_some, if_neg h] at herr
              exact Except.noConfusion herr
    | none =>
        cases fetch with
        | ok d => exact Except.noConfusion herr
        | error e3 => cases e3; exact ⟨rfl, rfl⟩
  · rintro ⟨hc, hf⟩
    subst hc; subst hf
    exact ⟨(), rfl⟩

/-- Witness for C10 at concrete inputs: a stale-but-present entry is served on
fetch failure, a fresh entry is served without fetching, and a missing entry
plus failed fetch raises. -/
theorem claim_C10_witness :
    get_json_cached "u" (some ⟨0, (42 : ℚ)⟩) 5 10 (Except.ok (7 : ℚ)) =
      Except.ok (⟨"u", (42 : ℚ), true⟩, some ⟨0, (42 : ℚ)⟩) ∧
    get_json_cached "u" (some ⟨0, (42 : ℚ)⟩) 5 10 (Except.error ()) =
      Except.ok (⟨"u", (42 : ℚ), true⟩, some ⟨0, (42 : ℚ)⟩) ∧
    (∃ err, get_json_cached "u" (none : Option (CacheEntry ℚ)) 5 10 (Except.error ()) =
      Except.error err) := by
  refine ⟨?_, ?_, ?_⟩
  · exact ((claim_C10 "u" ⟨0, (42 : ℚ)⟩ none 5 10 (Except.ok 7) (Except.ok 7)).1
      (by norm_num)).1
  · exact (claim_C10 "u" ⟨0, (42 : ℚ)⟩ none 5 10 (Except.error ()) (Except.error ())).2.1
  · exact (claim_C10 "u" ⟨0, (42 : ℚ)⟩ (none : Option (CacheEntry ℚ)) 5 10 (Except.error ())
      (Except.error ())).2.2.mpr ⟨rfl, rfl⟩

/-- C7: the live blend weight is `a(t) = clamp01(1 - t/48)`, so `a(48) = 0`
makes the effective spread equal the frozen close and `a(0) = 1` makes it
equal the current live spread; a non-live status, a missing frozen close, or
a missing current spread leaves the current spread unchanged. -/
theorem claim_C7 :
    (∀ t : ℚ, live_weight_a (some t) = clamp01Q (1 - t / 48)) ∧
    live_weight_a (some 48) = 0 ∧
    live_weight_a (some 0) = 1 ∧
    (∀ cur close : ℚ,
      effective_spread_row "in" (some cur) (some close) (live_weight_a (some 48)) = some close) ∧
    (∀ cur close : ℚ,
      effective_spread_row "in" (some cur) (some close) (live_weight_a (some 0)) = some cur) ∧
    (∀ (st : String) (cur : Option ℚ) (close : Option ℚ) (a : ℚ), pyLower st ≠ "in" →
      effective_spread_row st cur close a = cur) ∧
    (∀ (st : String) (cur : ℚ) (a : ℚ), effective_spread_row st (some cur) none a = some cur) ∧
    (∀ (st : String) (close : Option ℚ) (a : ℚ), effective_spread_row st none close a = none) := by
  have ha48 : live_weight_a (some 48) = 0 := by norm_num [live_weight_a]
  have ha0 : live_weight_a (some 0) = 1 := by norm_num [live_weight_a]
  have hin : pyLower "in" = "in" := rfl
  refine ⟨fun t => rfl, ha48, ha0, fun cur close => ?_, fun cur close => ?_,
    fun st cur close a h => ?_, fun st cur a => ?_, fun st close a => ?_⟩
  · rw [ha48]; simp [effective_spread_row, hin]
  · rw [ha0]; simp [effective_spread_row, hin]
  · cases cur with
    | none => rfl
    | some cf => simp [effective_spread_row, h]
  · by_cases h : pyLower st ≠ "in" <;> simp [effective_spread_row, h]
  · rfl

/-- Witness for C7 at a concrete non-live row: a `post` game keeps its
current spread. -/
theorem claim_C7_witness :
    effective_spread_row "post" (some (3 : ℚ)) (some (5 : ℚ)) (1 / 2) = some (3 : ℚ) := by
  exact claim_C7.2.2.2.2.2.1 "post" (some 3) (some 5) (1 / 2) (by decide)

/-- C9: the closing-spread store is written only for a `pre`-status row with
an observed home spread; a sequence of pre-game passes observing spreads
-3.5, -4.0, -4.5 followed by a live pass freezes -4.5, and an authoritative
ESPN closing line overrides the frozen value. -/
theorem claim_C9 :
    (∀ (store : List (String × ℚ)) (r : BuildRow),
      pyLower r.status ≠ "pre" ∨ r.home_spread = none ∨ pyStrip r.game_id = "" →
      close_store_step store r = store) ∧
    (alookup (close_store_pass (close_store_pass (close_store_pass (close_store_pass []
        [⟨"401", "pre", some (-(7/2))⟩]) [⟨"401", "pre", some (-4)⟩])
        [⟨"401", "pre", some (-(9/2))⟩]) [⟨"401", "in", some (-2)⟩]) "401" = some (-(9/2)) ∧
     close_spread_row [] (close_store_pass (close_store_pass (close_store_pass (close_store_pass []
        [⟨"401", "pre", some (-(7/2))⟩]) [⟨"401", "pre", some (-4)⟩])
        [⟨"401", "pre", some (-(9/2))⟩]) [⟨"401", "in", some (-2)⟩])
        ⟨"401", "in", some (-2)⟩ = some (-(9/2)) ∧
     close_spread_row [("401", -6)] (close_store_pass (close_store_pass (close_store_pass
        (close_store_pass [] [⟨"401", "pre", some (-(7/2))⟩]) [⟨"401", "pre", some (-4)⟩])
        [⟨"401", "pre", some (-(9/2))⟩]) [⟨"401", "in", some (-2)⟩])
        ⟨"401", "in", some (-2)⟩ = some (-6)) := by
  refine ⟨fun store r h => ?_, rfl, rfl, rfl⟩
  rcases h with h | h | h
  · by_cases hg : pyStrip r.game_id = "" <;> simp [close_store_step, hg, h]
  · simp [close_store_step, h]
  · simp [close_store_step, h]

/-- Witness for C9: a live row never writes the store. -/
theorem claim_C9_witness :
    close_store_step [("x", (1 : ℚ))] ⟨"g", "post", some 3⟩ = [("x", (1 : ℚ))] := by
  exact claim_C9.1 [("x", (1 : ℚ))] ⟨"g", "post", some 3⟩ (Or.inl (by decide))

/-- C5: for a player whose authoritative abbreviation is the ambiguous GTD
code, the weight is taken from the probable/doubtful/questionable keyword of
the comment only when the comment mentions the target game's day of week;
otherwise (including when there is no comment) the default
Questionable-equivalent weight applies. -/
theorem claim_C5 (abbr sc dow : Option String)
    (h : pyUpper (pyStrip (abbr.getD "")) = "GTD") :
    (comment_mentions_dow sc dow = false →
      weight_for_abbr_with_short_comment abbr sc dow = INJURY_WEIGHT_QUESTIONABLE) ∧
    (comment_mentions_dow sc dow = true →
      weight_for_abbr_with_short_comment abbr sc dow =
        injury_weight (comment_keyword_status sc)) ∧
    injury_weight "Questionable" = INJURY_WEIGHT_QUESTIONABLE := by
  have hW : weight_for_abbr_with_short_comment abbr sc dow =
      (if pyLower (pyStrip (dow.getD "")) ≠ "" ∧
          pyContains (pyLower (sc.getD "")) (pyLower (pyStrip (dow.getD ""))) = true then
        injury_weight (comment_keyword_status sc)
      else injury_weight "Questionable") := by
    unfold weight_for_abbr_with_short_comment
    rw [h]
    norm_num
    by_cases hc : pyLower (pyStrip (dow.getD "")) ≠ "" ∧
        pyContains (pyLower (sc.getD "")) (pyLower (pyStrip (dow.getD ""))) = true
    · rw [if_pos hc, if_pos hc]
      unfold comment_keyword_status
      by_cases h1 : pyContains (pyLower (sc.getD "")) "probable" = true
      · simp [h1]
      · simp only [Bool.not_eq_true] at h1
        by_cases h2 : pyContains (pyLower (sc.getD "")) "doubtful" = true
        · simp [h1, h2]
        · simp only [Bool.not_eq_true] at h2
          by_cases h3 : pyContains (pyLower (sc.getD "")) "questionable" = true
          · simp [h1, h2, h3]
          · simp only [Bool.not_eq_true] at h3
            simp [h1, h2, h3]
    · rw [if_neg hc, if_neg hc]
      simp
  refine ⟨fun hm => ?_, fun hm => ?_, rfl⟩
  · rw [hW, if_neg ?_]
    · rfl
    · unfold comment_mentions_dow at hm
      simp only [Bool.and_eq_false_iff, decide_eq_false_iff_not, not_not] at hm
      rcases hm with hm | hm
      · rintro ⟨h1, _⟩; exact h1 hm
      · rintro ⟨_, h2⟩; rw [hm] at h2; exact Bool.false_ne_true h2
  · rw [hW, if_pos ?_]
    unfold comment_mentions_dow at hm
    simp only [Bool.and_eq_true, decide_eq_true_eq] at hm
    exact ⟨hm.1, hm.2⟩

/-- Witness for C5: a GTD player with a comment mentioning the game day and
the word probable gets the Available weight, and one whose comment does not
mention the day keeps the Questionable weight. -/
theorem claim_C5_witness :
    weight_for_abbr_with_short_comment (some "GTD")
      (some "Tuesday: Smith (knee) probable") (some "tuesday") = injury_weight
        (comment_keyword_status (some "Tuesday: Smith (knee) probable")) ∧
    weight_for_abbr_with_short_comment (some "GTD") (some "sore knee") (some "tuesday") =
      INJURY_WEIGHT_QUESTIONABLE := by
  constructor
  · exact (claim_C5 (some "GTD") (some "Tuesday: Smith (knee) probable") (some "tuesday")
      rfl).2.1 rfl
  · exact (claim_C5 (some "GTD") (some "sore knee") (some "tuesday") rfl).1 rfl

/-- Helper: concrete weight evaluations reused across the injury claims. -/
theorem injury_weight_Available : injury_weight "Available" = INJURY_WEIGHT_AVAILABLE := rfl

/-- Helper: the Out status carries the Out weight. -/
theorem injury_weight_Out : injury_weight "Out" = INJURY_WEIGHT_OUT := rfl

/-- Helper: the Questionable status carries the Questionable weight. -/
theorem injury_weight_Questionable :
    injury_weight "Questionable" = INJURY_WEIGHT_QUESTIONABLE := rfl

/-- C6 counterexample: a league-feed injury entry with no parsable status
fields is defaulted by `_parse_fantasy_abbr` to the ambiguous `"GTD"` code,
which the weight resolver maps to the Questionable weight 0.4 — not to the
Available weight 0.  So an absent status can contribute an injury penalty. -/
theorem claim_C6_counterexample :
    parse_fantasy_abbr ⟨none, none⟩ = "GTD" ∧
    weight_for_abbr_with_short_comment
      (some (pyUpper (normalize_status_for_display (some (parse_fantasy_abbr ⟨none, none⟩)))))
      none none = INJURY_WEIGHT_QUESTIONABLE ∧
    INJURY_WEIGHT_QUESTIONABLE ≠ INJURY_WEIGHT_AVAILABLE := by
  refine ⟨rfl, rfl, ?_⟩
  norm_num [INJURY_WEIGHT_QUESTIONABLE, INJURY_WEIGHT_AVAILABLE]

/-- C6 amended: a status string recognised by none of the weight patterns maps
to the Available weight 0, and a normalised abbreviation other than
OUT/OFS/GTD likewise resolves to weight 0; the one exception is the
league-feed entry with no parsable status at all, which defaults to `"GTD"`
(see the counterexample). -/
theorem claim_C6_amended :
    (∀ status : String,
      pyContains (pyLower (pyStrip status)) "injur" = false →
      pyContains (pyLower (pyStrip status)) "out" = false →
      pyContains (pyLower (pyStrip status)) "doubt" = false →
      pyContains (pyLower (pyStrip status)) "question" = false →
      pyLower (pyStrip status) ∉ GTD_SET →
      injury_weight status = INJURY_WEIGHT_AVAILABLE) ∧
    (∀ abbr sc dow : Option String,
      pyUpper (pyStrip (abbr.getD "")) ≠ "OUT" →
      pyUpper (pyStrip (abbr.getD "")) ≠ "OFS" →
      pyUpper (pyStrip (abbr.getD "")) ≠ "GTD" →
      weight_for_abbr_with_short_comment abbr sc dow = INJURY_WEIGHT_AVAILABLE) ∧
    injury_weight "" = INJURY_WEIGHT_AVAILABLE ∧
    INJURY_WEIGHT_AVAILABLE = 0 ∧
    parse_fantasy_abbr ⟨none, none⟩ = "GTD" := by
  refine ⟨fun status h1 h2 h3 h4 h5 => ?_, fun abbr sc dow h1 h2 h3 => ?_, rfl, rfl, rfl⟩
  · simp [injury_weight, h1, h2, h3, h4, h5]
  · by_cases ha : pyUpper (pyStrip (abbr.getD "")) = ""
    · simp [weight_for_abbr_with_short_comment, ha, injury_weight_Available]
    · simp [weight_for_abbr_with_short_comment, ha, h1, h2, h3, injury_weight_Available]

/-- Witness for C6's amended statement at concrete unrecognised statuses. -/
theorem claim_C6_amended_witness :
    injury_weight "mystery ailment" = INJURY_WEIGHT_AVAILABLE ∧
    weight_for_abbr_with_short_comment (some "Q") none none = INJURY_WEIGHT_AVAILABLE := by
  constructor
  · exact claim_C6_amended.1 "mystery ailment" rfl rfl rfl rfl (by decide)
  · exact claim_C6_amended.2.1 (some "Q") none none (by decide) (by decide) (by decide)

/-- C8: the game-clock regex is written with doubled backslashes, so the
documented formats ("5:32 Q3", "12:00 Q4", "0.0 Q2") never match and
`minutes_remaining` is `None` instead of the specified
`max(0, 4 - quarter) * 12 + seconds_in_quarter / 60` (for "5:32 Q3" that
would be 263/15 ≈ 17.53). -/
theorem claim_C8 :
    minutes_remaining_from_time_remaining (some "5:32 Q3") = Except.ok none ∧
    minutes_remaining_from_time_remaining (some "5:32 Q3") ≠
      Except.ok (some ((263 : ℚ) / 15)) ∧
    minutes_remaining_from_time_remaining (some "12:00 Q4") = Except.ok none ∧
    minutes_remaining_from_time_remaining (some "0.0 Q2") = Except.ok none ∧
    ((max 0 (4 - (3 : ℤ)) : ℤ) : ℚ) * 12 + ((5 * 60 + 32 : ℚ)) / 60 = 263 / 15 := by
  refine ⟨rfl, fun hcon => ?_, rfl, rfl, by norm_num⟩
  have h1 := hcon
  rw [show minutes_remaining_from_time_remaining (some "5:32 Q3") = Except.ok none from rfl]
    at h1
  exact Option.noConfusion (Except.ok.inj h1)

/-- Helper: an `acc + f x` fold is the fold seed plus the mapped sum. -/
theorem foldl_add_map_sum {α : Type} (f : α → ℚ) (l : List α) (a : ℚ) :
    l.foldl (fun acc x => acc + f x) a = a + (l.map f).sum := by
  induction l generalizing a with
  | nil => simp
  | cons x xs ih =>
      rw [List.foldl_cons, ih, List.map_cons, List.sum_cons]
      ring

/-- Helper: `clamp01Q` stays within the unit interval. -/
theorem clamp01Q_mem (x : ℚ) : 0 ≤ clamp01Q x ∧ clamp01Q x ≤ 1 := by
  constructor
  · exact le_max_left 0 _
  · exact max_le (by norm_num) (min_le_left 1 x)

/-- Helper: `clamp01Q` of a value below one stays below one. -/
theorem clamp01Q_lt_one {x : ℚ} (h : x < 1) : clamp01Q x < 1 := by
  unfold clamp01Q
  exact max_lt (by norm_num) (lt_of_le_of_lt (min_le_right 1 x) h)

/-- C3: the pipeline health equals `clamp01(1 - w * Σ weight(status)·share)`
over the merged injury map, an empty merged map yields exactly 1, a single
resolvable injury with positive weight and positive share strictly lowers
health below the injury-free baseline 1, health never leaves [0, 1], and the
`compute_team_health` variant of core/health_espn.py obeys the same formula
and bounds. -/
theorem claim_C3 :
    (∀ (players : List PlayerImpact) (detailById : List (String × InjDetail))
        (dow : Option String) (byTeam : List (String × String)),
      team_health players detailById dow byTeam = health_spec players detailById dow byTeam) ∧
    (∀ players detailById dow, team_health players detailById dow [] = 1) ∧
    (∀ (players : List PlayerImpact) (detailById : List (String × InjDetail))
        (dow : Option String) (pid st : String) (p : PlayerImpact),
      resolve_impact players pid (((alookup detailById pid).map (fun d => d.name)).getD "") =
        some p →
      0 < entry_weight detailById dow (pid, st) →
      0 < p.impact_share →
      team_health players detailById dow [(pid, st)] < team_health players detailById dow []) ∧
    (∀ players detailById dow byTeam,
      0 ≤ team_health players detailById dow byTeam ∧
      team_health players detailById dow byTeam ≤ 1) ∧
    (∀ (impacts : List PlayerImpact) (status_of : String → String),
      impacts.isEmpty = false →
      compute_team_health_value impacts status_of =
        clamp01Q (1 - INJURY_OVERALL_IMPORTANCE_WEIGHT *
          (impacts.map (fun p => injury_weight (status_of p.athlete_id) * p.impact_share)).sum)) ∧
    (∀ impacts status_of,
      0 ≤ compute_team_health_value impacts status_of ∧
      compute_team_health_value impacts status_of ≤ 1) := by
  have hpen : ∀ players detailById dow byTeam,
      injury_penalty players detailById dow byTeam =
        (byTeam.map (entry_contrib players detailById dow)).sum := by
    intro players detailById dow byTeam
    unfold injury_penalty
    rw [foldl_add_map_sum]
    ring
  refine ⟨?_, ?_, ?_, ?_, ?_, ?_⟩
  · intro players detailById dow byTeam
    by_cases h : byTeam = []
    · subst h
      unfold team_health health_spec clamp01Q
      norm_num
    · unfold team_health health_spec
      rw [if_neg h, hpen]
  · intro players detailById dow
    rfl
  · intro players detailById dow pid st p hres hw hs
    have hcontrib : entry_contrib players detailById dow (pid, st) =
        entry_weight detailById dow (pid, st) * p.impact_share := by
      simp only [entry_contrib, entry_weight, hres]
    have hpos : 0 < entry_contrib players detailById dow (pid, st) := by
      rw [hcontrib]; exact mul_pos hw hs
    have hone : team_health players detailById dow [] = 1 := rfl
    rw [hone]
    unfold team_health
    rw [if_neg (by simp)]
    apply clamp01Q_lt_one
    have hp : injury_penalty players detailById dow [(pid, st)] =
        entry_contrib players detailById dow (pid, st) := by
      rw [hpen]; simp
    rw [hp]
    have : 0 < INJURY_OVERALL_IMPORTANCE_WEIGHT *
        entry_contrib players detailById dow (pid, st) := by
      apply mul_pos _ hpos
      norm_num [INJURY_OVERALL_IMPORTANCE_WEIGHT]
    linarith
  · intro players detailById dow byTeam
    by_cases h : byTeam = []
    · subst h; constructor <;> norm_num [team_health]
    · unfold team_health
      rw [if_neg h]
      exact clamp01Q_mem _
  · intro impacts status_of h
    unfold compute_team_health_value
    rw [h]
    norm_num
  · intro impacts status_of
    unfold compute_team_health_value
    by_cases h : impacts.isEmpty
    · rw [if_pos h]; norm_num
    · rw [if_neg h]; exact clamp01Q_mem _

/-- Witness for C3: a one-player roster with impact share 1/2 whose player is
listed OUT drops from health 1 to 0.7. -/
theorem claim_C3_witness :
    team_health [⟨"1", "Star", 20, 5, 5, 1, 1, 30, 1/2, 1, "Out", 1⟩] [] none [("1", "OUT")] <
      team_health [⟨"1", "Star", 20, 5, 5, 1, 1, 30, 1/2, 1, "Out", 1⟩] [] none [] := by
  exact claim_C3.2.2.1 [⟨"1", "Star", 20, 5, 5, 1, 1, 30, 1/2, 1, "Out", 1⟩] [] none "1" "OUT"
    ⟨"1", "Star", 20, 5, 5, 1, 1, 30, 1/2, 1, "Out", 1⟩ rfl
    (by rw [show entry_weight [] none ("1", "OUT") = INJURY_WEIGHT_OUT from rfl]
        norm_num [INJURY_WEIGHT_OUT])
    (by norm_num)

/-- Helper: `impacts_raw` distributes over list append. -/
theorem impacts_raw_append (l1 l2 : List RosterEntry) :
    impacts_raw (l1 ++ l2) = impacts_raw l1 ++ impacts_raw l2 := by
  unfold impacts_raw
  exact List.filterMap_append l1 l2 _

/-- Helper: a roster entry with no reported stats contributes nothing to
`impacts_raw`. -/
theorem impacts_raw_skip (r : RosterEntry) (h : has_reported_stats r = false) :
    impacts_raw [r] = [] := by
  unfold impacts_raw has_reported_stats at *
  cases hs : r.stats with
  | error e => simp [List.filterMap, hs]
  | ok q =>
      obtain ⟨p1, p2, p3, p4, p5⟩ := q
      rw [hs] at h
      simp only [Bool.not_eq_false', Bool.and_eq_true, decide_eq_true_eq] at h
      obtain ⟨⟨⟨⟨e1, e2⟩, e3⟩, e4⟩, e5⟩ := h
      subst e1; subst e2; subst e3; subst e4; subst e5
      simp [List.filterMap, hs]

/-- Helper: dropping the no-stats entries leaves `impacts_raw` unchanged. -/
theorem impacts_raw_filter (roster : List RosterEntry) :
    impacts_raw (roster.filter (fun r => has_reported_stats r)) = impacts_raw roster := by
  induction roster with
  | nil => rfl
  | cons r rs ih =>
      rw [List.filter_cons]
      by_cases hr : has_reported_stats r = true
      · rw [if_pos hr,
          show r :: List.filter (fun x => has_reported_stats x) rs =
            [r] ++ List.filter (fun x => has_reported_stats x) rs from rfl,
          impacts_raw_append, ih, show r :: rs = [r] ++ rs from rfl, impacts_raw_append]
      · have hr' : has_reported_stats r = false := by
          revert hr; cases has_reported_stats r <;> simp
        rw [if_neg hr, ih, show r :: rs = [r] ++ rs from rfl, impacts_raw_append,
          impacts_raw_skip r hr', List.nil_append]

/-- C4: a non-empty impact list has shares summing to 1 and relative impacts
equal to raw impact over the team maximum; a non-positive team total or
maximum yields the empty list; and entries whose stats are all absent are
excluded from the list and from the share denominator. -/
theorem claim_C4 (roster : List RosterEntry) :
    (compute_team_player_impacts roster ≠ [] →
      ((compute_team_player_impacts roster).map (fun p => p.impact_share)).sum = 1 ∧
      ∃ M : ℚ, 0 < M ∧
        (∀ p ∈ compute_team_player_impacts roster, p.raw_impact ≤ M) ∧
        (∃ p ∈ compute_team_player_impacts roster, p.raw_impact = M) ∧
        ∀ p ∈ compute_team_player_impacts roster,
          p.relative_raw_impact = p.raw_impact / M) ∧
    (sum_raw (impacts_raw roster) ≤ 0 ∨ max_raw (impacts_raw roster) ≤ 0 →
      compute_team_player_impacts roster = []) ∧
    compute_team_player_impacts roster =
      compute_team_player_impacts (roster.filter (fun r => has_reported_stats r)) := by
  have hguard : sum_raw (impacts_raw roster) ≤ 0 ∨ max_raw (impacts_raw roster) ≤ 0 →
      compute_team_player_impacts roster = [] := by
    intro h
    simp only [compute_team_player_impacts]
    by_cases h0 : roster.isEmpty
    · simp [h0]
    · simp only [h0, Bool.false_eq_true, if_false]
      by_cases h1 : (impacts_raw roster).isEmpty
      · simp [h1]
      · simp only [h1, Bool.false_eq_true, if_false]
        rw [if_pos h]
  refine ⟨fun hne => ?_, hguard, ?_⟩
  · -- the guards must all have passed
    by_cases h0 : roster.isEmpty
    · exact absurd (by simp only [compute_team_player_impacts, h0, if_true]) hne
    · by_cases h1 : (impacts_raw roster).isEmpty
      · exact absurd (by simp only [compute_team_player_impacts, h0, Bool.false_eq_true,
          if_false, h1, if_true]) hne
      · by_cases h2 : sum_raw (impacts_raw roster) ≤ 0 ∨ max_raw (impacts_raw roster) ≤ 0
        · exact absurd (hguard h2) hne
        · push_neg at h2
          obtain ⟨hS, hM⟩ := h2
          have hmain : compute_team_player_impacts roster =
              List.insertionSort (fun a b => b.raw_impact ≤ a.raw_impact)
                ((impacts_raw roster).map (fun t =>
                  ({ athlete_id := t.athlete_id
                     name := t.name
                     points_per_game := t.pts
                     assists_per_game := t.ast
                     rebounds_per_game := t.reb
                     steals_per_game := t.stl
                     blocks_per_game := t.blk
                     raw_impact := t.raw
                     impact_share :=
                       if sum_raw (impacts_raw roster) ≠ 0 then
                         t.raw / sum_raw (impacts_raw roster) else 0
                     relative_raw_impact :=
                       if max_raw (impacts_raw roster) ≠ 0 then
                         t.raw / max_raw (impacts_raw roster) else 0
                     injury_status := t.status
                     injury_weight := injury_weight t.status } : PlayerImpact))) := by
            simp only [compute_team_player_impacts, h0, Bool.false_eq_true, if_false, h1]
            rw [if_neg (by push_neg; exact ⟨hS, hM⟩)]
          have hSne : sum_raw (impacts_raw roster) ≠ 0 := ne_of_gt hS
          have hMne : max_raw (impacts_raw roster) ≠ 0 := ne_of_gt hM
          have hperm := List.perm_insertionSort
            (fun a b : PlayerImpact => b.raw_impact ≤ a.raw_impact)
            ((impacts_raw roster).map (fun t =>
              ({ athlete_id := t.athlete_id
                 name := t.name
                 points_per_game := t.pts
                 assists_per_game := t.ast
                 rebounds_per_game := t.reb
                 steals_per_game := t.stl
                 blocks_per_game := t.blk
                 raw_impact := t.raw
                 impact_share :=
                   if sum_raw (impacts_raw roster) ≠ 0 then
                     t.raw / sum_raw (impacts_raw roster) else 0
                 relative_raw_impact :=
                   if max_raw (impacts_raw roster) ≠ 0 then
                     t.raw / max_raw (impacts_raw roster) else 0
                 injury_status := t.status
                 injury_weight := injury_weight t.status } : PlayerImpact)))
          constructor
          · -- shares sum to one
            rw [hmain]
            rw [(hperm.map (fun p : PlayerImpact => p.impact_share)).sum_eq]
            rw [List.map_map]
            have hfun : ((fun p : PlayerImpact => p.impact_share) ∘ (fun t : RawImpact =>
                ({ athlete_id := t.athlete_id
                   name := t.name
                   points_per_game := t.pts
                   assists_per_game := t.ast
                   rebounds_per_game := t.reb
                   steals_per_game := t.stl
                   blocks_per_game := t.blk
                   raw_impact := t.raw
                   impact_share :=
                     if sum_raw (impacts_raw roster) ≠ 0 then
                       t.raw / sum_raw (impacts_raw roster) else 0
                   relative_raw_impact :=
                     if max_raw (impacts_raw roster) ≠ 0 then
                       t.raw / max_raw (impacts_raw roster) else 0
                   injury_status := t.status
                   injury_weight := injury_weight t.status } : PlayerImpact))) =
                fun t : RawImpact => t.raw * (sum_raw (impacts_raw roster))⁻¹ := by
              funext t
              simp [Function.comp, hSne, div_eq_mul_inv]
            rw [hfun, List.sum_map_mul_right]
            have : (List.map (fun t : RawImpact => t.raw) (impacts_raw roster)).sum =
                sum_raw (impacts_raw roster) := rfl
            rw [this, mul_inv_cancel₀ hSne]
          · -- the maximum raw impact
            cases hM? : (List.map (fun t : RawImpact => t.raw) (impacts_raw roster)).max? with
            | none =>
                exfalso
                have : max_raw (impacts_raw roster) = 0 := by
                  unfold max_raw
                  rw [hM?]
                  rfl
                rw [this] at hM
                exact lt_irrefl 0 hM
            | some a =>
                have hMa : max_raw (impacts_raw roster) = a := by
                  unfold max_raw
                  rw [hM?]
                  rfl
                have hspec := (@List.max?_eq_some_iff ℚ a _ _
                  ⟨fun h1 h2 => le_antisymm h1 h2⟩ (fun x : ℚ => le_refl x)
                  (fun x y => max_choice x y) (fun x y z => max_le_iff) _).mp hM?
                obtain ⟨hamem, hbound⟩ := hspec
                refine ⟨a, hMa ▸ hM, ?_, ?_, ?_⟩
                · intro p hp
                  rw [hmain] at hp
                  have hp2 := (hperm.mem_iff).mp hp
                  obtain ⟨t, ht, rfl⟩ := List.mem_map.mp hp2
                  exact hbound t.raw (List.mem_map.mpr ⟨t, ht, rfl⟩)
                · obtain ⟨t, ht, hta⟩ := List.mem_map.mp hamem
                  rw [hmain]
                  exact ⟨_, (hperm.mem_iff).mpr (List.mem_map.mpr ⟨t, ht, rfl⟩), hta⟩
                · intro p hp
                  rw [hmain] at hp
                  have hp2 := (hperm.mem_iff).mp hp
                  obtain ⟨t, ht, rfl⟩ := List.mem_map.mp hp2
                  have hane : a ≠ 0 := hMa ▸ hMne
                  simp [hMa, hane]
  · -- filtering out the no-stats entries changes nothing
    simp only [compute_team_player_impacts, impacts_raw_filter]
    by_cases h0 : roster.isEmpty
    · have : roster = [] := List.isEmpty_iff.mp h0
      subst this
      rfl
    · by_cases h1 : (roster.filter (fun r => has_reported_stats r)).isEmpty
      · have h1' : impacts_raw roster = [] := by
          rw [← impacts_raw_filter roster, List.isEmpty_iff.mp h1]
          rfl
        simp [h0, h1, h1']
      · simp [h0, h1]


/-- Witness for C4: a four-entry roster (two scored players, one with no
reported stats, one failed fetch) yields shares that sum to one, and a roster
whose only player has zero raw impact yields the empty list. -/
theorem claim_C4_witness :
    ((compute_team_player_impacts
        [⟨"1", "A", none, Except.ok (some 20, some 5, some 5, none, none)⟩,
         ⟨"2", "B", some "", Except.ok (some 10, none, none, some 1, none)⟩,
         ⟨"3", "C", none, Except.ok (none, none, none, none, none)⟩,
         ⟨"4", "D", none, Except.error ()⟩]).map (fun p => p.impact_share)).sum = 1 ∧
    compute_team_player_impacts [⟨"1", "A", none, Except.ok (some 0, none, none, none, none)⟩] =
      [] := by
  have hir : impacts_raw
      [⟨"1", "A", none, Except.ok (some 20, some 5, some 5, none, none)⟩,
       ⟨"2", "B", some "", Except.ok (some 10, none, none, some 1, none)⟩,
       ⟨"3", "C", none, Except.ok (none, none, none, none, none)⟩,
       ⟨"4", "D", none, Except.error ()⟩] =
      [⟨"1", "A", 20, 5, 5, 0, 0, 20 + 5 + 5, "Available"⟩,
       ⟨"2", "B", 10, 0, 0, 1, 0, 10 + 0 + 0, "Available"⟩] := rfl
  have hS2 : sum_raw [⟨"1", "A", 20, 5, 5, 0, 0, 30, "Available"⟩,
      ⟨"2", "B", 10, 0, 0, 1, 0, 10, "Available"⟩] = 40 := by
    norm_num [sum_raw]
  have hM2 : max_raw [⟨"1", "A", 20, 5, 5, 0, 0, 30, "Available"⟩,
      ⟨"2", "B", 10, 0, 0, 1, 0, 10, "Available"⟩] = 30 := by
    norm_num [max_raw, List.max?, max_def]
  constructor
  · have hne : compute_team_player_impacts
        [⟨"1", "A", none, Except.ok (some 20, some 5, some 5, none, none)⟩,
         ⟨"2", "B", some "", Except.ok (some 10, none, none, some 1, none)⟩,
         ⟨"3", "C", none, Except.ok (none, none, none, none, none)⟩,
         ⟨"4", "D", none, Except.error ()⟩] ≠ [] := by
      simp only [compute_team_player_impacts, hir]
      norm_num [hS2, hM2, List.insertionSort, List.orderedInsert]
      exact List.cons_ne_nil _ _
    exact ((claim_C4 _).1 hne).1
  · refine (claim_C4 _).2.1 (Or.inl ?_)
    have hir0 : impacts_raw [⟨"1", "A", none, Except.ok (some 0, none, none, none, none)⟩] =
        [⟨"1", "A", 0, 0, 0, 0, 0, 0 + 0 + 0, "Available"⟩] := rfl
    rw [hir0]
    norm_num [sum_raw]

/-- Helper: `(x ^ (m/n)) ^ n = x ^ m` for a nonnegative real base. -/
theorem rpow_div_nat_pow {x : ℝ} (hx : 0 ≤ x) (m n : ℕ) (hn : (n : ℝ) ≠ 0) :
    (x ^ ((m : ℝ) / (n : ℝ))) ^ n = x ^ m := by
  rw [← Real.rpow_natCast (x ^ ((m : ℝ) / (n : ℝ))) n, ← Real.rpow_mul hx,
    div_mul_cancel₀ _ hn, Real.rpow_natCast]

/-- Helper: an upper rational bound on `x ^ (m/n)` from integer powers. -/
theorem rpow_div_lt_of_pow_lt {x t : ℝ} (hx : 0 ≤ x) (ht : 0 ≤ t) {m n : ℕ}
    (hn : (n : ℝ) ≠ 0) (h : x ^ m < t ^ n) : x ^ ((m : ℝ) / (n : ℝ)) < t := by
  apply lt_of_pow_lt_pow_left n ht
  rwa [rpow_div_nat_pow hx m n hn]

/-- Helper: a lower rational bound on `x ^ (m/n)` from integer powers. -/
theorem lt_rpow_div_of_pow_lt {x t : ℝ} (hx : 0 ≤ x) {m n : ℕ}
    (hn : (n : ℝ) ≠ 0) (h : t ^ n < x ^ m) : t < x ^ ((m : ℝ) / (n : ℝ)) := by
  apply lt_of_pow_lt_pow_left n (Real.rpow_nonneg hx _)
  rwa [rpow_div_nat_pow hx m n hn]

/-- Helper: `rpow` with a nonpositive exponent is antitone in the base. -/
theorem rpow_anti_of_nonpos {x y z : ℝ} (hx : 0 < x) (hxy : x ≤ y) (hz : z ≤ 0) :
    y ^ z ≤ x ^ z := by
  have hy : 0 < y := lt_of_lt_of_le hx hxy
  rw [show z = -(-z) from (neg_neg z).symm, Real.rpow_neg hy.le, Real.rpow_neg hx.le]
  exact inv_le_inv_of_le (Real.rpow_pos_of_pos hx _)
    (Real.rpow_le_rpow hx.le hxy (neg_nonneg.mpr hz))

/-- Helper: numeric evaluation of the C1 example: quality is exactly 3/4,
closeness lies in (0.715, 0.7165) and the CES utility lies in
(10000/13533, 10000/13519) ⊆ (0.7389, 0.7397). -/
theorem c1_bounds :
    team_quality 0.6 0.55 QUALITY_FLOOR WIN_MAX WIN_MIN = 3 / 4 ∧
    (143 / 200 : ℝ) <
      closeness (some 5) SPREAD_CAP SPREAD_MIN CLOSENESS_FLOOR CLOSENESS_CURVATURE ∧
    closeness (some 5) SPREAD_CAP SPREAD_MIN CLOSENESS_FLOOR CLOSENESS_CURVATURE <
      (1433 / 2000 : ℝ) ∧
    (10000 / 13533 : ℝ) <
      uavg (team_quality 0.6 0.55 QUALITY_FLOOR WIN_MAX WIN_MIN)
        (closeness (some 5) SPREAD_CAP SPREAD_MIN CLOSENESS_FLOOR CLOSENESS_CURVATURE)
        SIGMA RELATIVE_QUALITY_MULTIPLIER ∧
    uavg (team_quality 0.6 0.55 QUALITY_FLOOR WIN_MAX WIN_MIN)
        (closeness (some 5) SPREAD_CAP SPREAD_MIN CLOSENESS_FLOOR CLOSENESS_CURVATURE)
        SIGMA RELATIVE_QUALITY_MULTIPLIER < (10000 / 13519 : ℝ) := by
  have hq : team_quality 0.6 0.55 QUALITY_FLOOR WIN_MAX WIN_MIN = 3 / 4 := by
    unfold team_quality clamp01_floor QUALITY_FLOOR WIN_MAX WIN_MIN
    rw [show (0.5 * ((0.6 : ℝ) + 0.55) - 0.2) / (0.7 - 0.2) = 3 / 4 by norm_num]
    rw [min_eq_right (by norm_num : (3 / 4 : ℝ) ≤ 1), max_eq_right (by norm_num : (0.1 : ℝ) ≤ 3 / 4)]
  have hc_eq : closeness (some 5) SPREAD_CAP SPREAD_MIN CLOSENESS_FLOOR CLOSENESS_CURVATURE =
      clamp01_floor (((15 - min (5 : ℝ) 15) / (15 - 0.5)) ^ (0.9 : ℝ)) 0.1 := by
    unfold closeness SPREAD_CAP SPREAD_MIN CLOSENESS_FLOOR CLOSENESS_CURVATURE
    rw [if_neg (by norm_num : ¬(15 : ℝ) ≤ 0)]
  rw [min_eq_left (by norm_num : (5 : ℝ) ≤ 15),
    show ((15 : ℝ) - 5) / (15 - 0.5) = 20 / 29 by norm_num,
    show (0.9 : ℝ) = (((9 : ℕ) : ℝ) / ((10 : ℕ) : ℝ)) by norm_num] at hc_eq
  have hx_lo : (143 / 200 : ℝ) < (20 / 29 : ℝ) ^ (((9 : ℕ) : ℝ) / ((10 : ℕ) : ℝ)) := by
    apply lt_rpow_div_of_pow_lt (by norm_num : (0 : ℝ) ≤ 20 / 29) (by norm_num)
    norm_num
  have hx_hi : (20 / 29 : ℝ) ^ (((9 : ℕ) : ℝ) / ((10 : ℕ) : ℝ)) < (1433 / 2000 : ℝ) := by
    apply rpow_div_lt_of_pow_lt (by norm_num : (0 : ℝ) ≤ 20 / 29) (by norm_num) (by norm_num)
    norm_num
  have hc_lo : (143 / 200 : ℝ) <
      closeness (some 5) SPREAD_CAP SPREAD_MIN CLOSENESS_FLOOR CLOSENESS_CURVATURE := by
    rw [hc_eq]
    unfold clamp01_floor
    rw [min_eq_right (le_of_lt (lt_trans hx_hi (by norm_num))),
      max_eq_right (le_of_lt (lt_trans (by norm_num) hx_lo))]
    exact hx_lo
  have hc_hi : closeness (some 5) SPREAD_CAP SPREAD_MIN CLOSENESS_FLOOR CLOSENESS_CURVATURE <
      (1433 / 2000 : ℝ) := by
    rw [hc_eq]
    unfold clamp01_floor
    rw [min_eq_right (le_of_lt (lt_trans hx_hi (by norm_num))),
      max_eq_right (le_of_lt (lt_trans (by norm_num) hx_lo))]
    exact hx_hi
  have hc0_pos : (0 : ℝ) < closeness (some 5) SPREAD_CAP SPREAD_MIN CLOSENESS_FLOOR
      CLOSENESS_CURVATURE := lt_trans (by norm_num) hc_lo
  have hc0_le1 : closeness (some 5) SPREAD_CAP SPREAD_MIN CLOSENESS_FLOOR
      CLOSENESS_CURVATURE ≤ 1 := le_of_lt (lt_trans hc_hi (by norm_num))
  have hqq : clampQ (3 / 4) = 3 / 4 := by
    unfold clampQ clamp01_floor QUALITY_FLOOR COMPONENT_CAP
    rw [min_eq_right (by norm_num : (3 / 4 : ℝ) ≤ 1),
      max_eq_right (by norm_num : (0.1 : ℝ) ≤ 3 / 4),
      min_eq_left (by norm_num : (3 / 4 : ℝ) ≤ 1.0)]
  have hcc : clampC (closeness (some 5) SPREAD_CAP SPREAD_MIN CLOSENESS_FLOOR
      CLOSENESS_CURVATURE) = closeness (some 5) SPREAD_CAP SPREAD_MIN CLOSENESS_FLOOR
      CLOSENESS_CURVATURE := by
    have hfloor_le : CLOSENESS_FLOOR ≤ closeness (some 5) SPREAD_CAP SPREAD_MIN
        CLOSENESS_FLOOR CLOSENESS_CURVATURE := by
      have h01 : CLOSENESS_FLOOR ≤ (143 / 200 : ℝ) := by norm_num [CLOSENESS_FLOOR]
      exact le_trans h01 (le_of_lt hc_lo)
    have hcap_le : closeness (some 5) SPREAD_CAP SPREAD_MIN CLOSENESS_FLOOR
        CLOSENESS_CURVATURE ≤ COMPONENT_CAP := by
      have h01 : (1433 / 2000 : ℝ) ≤ COMPONENT_CAP := by norm_num [COMPONENT_CAP]
      exact le_trans (le_of_lt hc_hi) h01
    unfold clampC clamp01_floor
    rw [min_eq_right hc0_le1, max_eq_right hfloor_le, min_eq_left hcap_le]
  have hsig_ne : SIGMA ≠ 0 := by unfold SIGMA; norm_num
  have hrho_ne : (SIGMA - 1) / SIGMA ≠ 0 := by unfold SIGMA; norm_num
  have hrho : (SIGMA - 1) / SIGMA = -(3 / 2 : ℝ) := by unfold SIGMA; norm_num
  have huavg_eq : uavg (team_quality 0.6 0.55 QUALITY_FLOOR WIN_MAX WIN_MIN)
      (closeness (some 5) SPREAD_CAP SPREAD_MIN CLOSENESS_FLOOR CLOSENESS_CURVATURE)
      SIGMA RELATIVE_QUALITY_MULTIPLIER =
      (0.7 * (3 / 4 : ℝ) ^ (-(3 / 2) : ℝ) +
        0.3 * (closeness (some 5) SPREAD_CAP SPREAD_MIN CLOSENESS_FLOOR
          CLOSENESS_CURVATURE) ^ (-(3 / 2) : ℝ)) ^ (-(2 / 3) : ℝ) := by
    rw [hq]
    simp only [uavg, RELATIVE_QUALITY_MULTIPLIER]
    rw [if_neg hsig_ne, if_neg hrho_ne, hrho, hqq, hcc]
    rw [show (1 : ℝ) / (-(3 / 2) : ℝ) = -(2 / 3 : ℝ) by norm_num]
    rw [show (1 : ℝ) - 0.7 = 0.3 by norm_num]
  -- bounds for the quality component power
  have h34_1 : (0.6495 : ℝ) < (3 / 4 : ℝ) ^ (((3 : ℕ) : ℝ) / ((2 : ℕ) : ℝ)) := by
    apply lt_rpow_div_of_pow_lt (by norm_num : (0 : ℝ) ≤ 3 / 4) (by norm_num)
    norm_num
  have h34_2 : (3 / 4 : ℝ) ^ (((3 : ℕ) : ℝ) / ((2 : ℕ) : ℝ)) < (0.6496 : ℝ) := by
    apply rpow_div_lt_of_pow_lt (by norm_num : (0 : ℝ) ≤ 3 / 4) (by norm_num) (by norm_num)
    norm_num
  rw [show (((3 : ℕ) : ℝ) / ((2 : ℕ) : ℝ)) = (3 / 2 : ℝ) by norm_num] at h34_1 h34_2
  have h34_pos : (0 : ℝ) < (3 / 4 : ℝ) ^ ((3 / 2) : ℝ) :=
    Real.rpow_pos_of_pos (by norm_num) _
  have hA_eq : (3 / 4 : ℝ) ^ (-(3 / 2) : ℝ) = ((3 / 4 : ℝ) ^ ((3 / 2) : ℝ))⁻¹ :=
    Real.rpow_neg (by norm_num) _
  have hA_lo : (625 / 406 : ℝ) < (3 / 4 : ℝ) ^ (-(3 / 2) : ℝ) := by
    rw [hA_eq]
    calc (625 / 406 : ℝ) = (0.6496 : ℝ)⁻¹ := by norm_num
    _ < ((3 / 4 : ℝ) ^ ((3 / 2) : ℝ))⁻¹ := inv_lt_inv_of_lt h34_pos h34_2
  have hA_hi : (3 / 4 : ℝ) ^ (-(3 / 2) : ℝ) < (2000 / 1299 : ℝ) := by
    rw [hA_eq]
    calc ((3 / 4 : ℝ) ^ ((3 / 2) : ℝ))⁻¹ < (0.6495 : ℝ)⁻¹ :=
      inv_lt_inv_of_lt (by norm_num) h34_1
    _ = (2000 / 1299 : ℝ) := by norm_num
  -- bounds for the closeness component power
  have hcpow_lo : (0.6045 : ℝ) < (closeness (some 5) SPREAD_CAP SPREAD_MIN CLOSENESS_FLOOR
      CLOSENESS_CURVATURE) ^ ((3 / 2) : ℝ) := by
    have h1 : (0.6045 : ℝ) < (143 / 200 : ℝ) ^ (((3 : ℕ) : ℝ) / ((2 : ℕ) : ℝ)) := by
      apply lt_rpow_div_of_pow_lt (by norm_num : (0 : ℝ) ≤ 143 / 200) (by norm_num)
      norm_num
    rw [show (((3 : ℕ) : ℝ) / ((2 : ℕ) : ℝ)) = (3 / 2 : ℝ) by norm_num] at h1
    exact lt_trans h1 (Real.rpow_lt_rpow (by norm_num) hc_lo (by norm_num))
  have hcpow_hi : (closeness (some 5) SPREAD_CAP SPREAD_MIN CLOSENESS_FLOOR
      CLOSENESS_CURVATURE) ^ ((3 / 2) : ℝ) < (0.6065 : ℝ) := by
    have h1 : (1433 / 2000 : ℝ) ^ (((3 : ℕ) : ℝ) / ((2 : ℕ) : ℝ)) < (0.6065 : ℝ) := by
      apply rpow_div_lt_of_pow_lt (by norm_num : (0 : ℝ) ≤ 1433 / 2000) (by norm_num)
        (by norm_num)
      norm_num
    rw [show (((3 : ℕ) : ℝ) / ((2 : ℕ) : ℝ)) = (3 / 2 : ℝ) by norm_num] at h1
    exact lt_trans (Real.rpow_lt_rpow (le_of_lt hc0_pos) hc_hi (by norm_num)) h1
  have hcpow_pos : (0 : ℝ) < (closeness (some 5) SPREAD_CAP SPREAD_MIN CLOSENESS_FLOOR
      CLOSENESS_CURVATURE) ^ ((3 / 2) : ℝ) := Real.rpow_pos_of_pos hc0_pos _
  have hB_eq : (closeness (some 5) SPREAD_CAP SPREAD_MIN CLOSENESS_FLOOR
      CLOSENESS_CURVATURE) ^ (-(3 / 2) : ℝ) =
      ((closeness (some 5) SPREAD_CAP SPREAD_MIN CLOSENESS_FLOOR
        CLOSENESS_CURVATURE) ^ ((3 / 2) : ℝ))⁻¹ := Real.rpow_neg (le_of_lt hc0_pos) _
  have hB_lo : (2000 / 1213 : ℝ) < (closeness (some 5) SPREAD_CAP SPREAD_MIN CLOSENESS_FLOOR
      CLOSENESS_CURVATURE) ^ (-(3 / 2) : ℝ) := by
    rw [hB_eq]
    calc (2000 / 1213 : ℝ) = (0.6065 : ℝ)⁻¹ := by norm_num
    _ < _ := inv_lt_inv_of_lt hcpow_pos hcpow_hi
  have hB_hi : (closeness (some 5) SPREAD_CAP SPREAD_MIN CLOSENESS_FLOOR
      CLOSENESS_CURVATURE) ^ (-(3 / 2) : ℝ) < (2000 / 1209 : ℝ) := by
    rw [hB_eq]
    calc _ < (0.6045 : ℝ)⁻¹ := inv_lt_inv_of_lt (by norm_num) hcpow_lo
    _ = (2000 / 1209 : ℝ) := by norm_num
  -- bounds for the CES base
  have hS_lo : (15722 / 10000 : ℝ) <
      0.7 * (3 / 4 : ℝ) ^ (-(3 / 2) : ℝ) +
        0.3 * (closeness (some 5) SPREAD_CAP SPREAD_MIN CLOSENESS_FLOOR
          CLOSENESS_CURVATURE) ^ (-(3 / 2) : ℝ) := by
    nlinarith [hA_lo, hB_lo]
  have hS_hi : 0.7 * (3 / 4 : ℝ) ^ (-(3 / 2) : ℝ) +
      0.3 * (closeness (some 5) SPREAD_CAP SPREAD_MIN CLOSENESS_FLOOR
        CLOSENESS_CURVATURE) ^ (-(3 / 2) : ℝ) < (15741 / 10000 : ℝ) := by
    nlinarith [hA_hi, hB_hi]
  have hS_pos : (0 : ℝ) < 0.7 * (3 / 4 : ℝ) ^ (-(3 / 2) : ℝ) +
      0.3 * (closeness (some 5) SPREAD_CAP SPREAD_MIN CLOSENESS_FLOOR
        CLOSENESS_CURVATURE) ^ (-(3 / 2) : ℝ) := lt_trans (by norm_num) hS_lo
  -- bounds for the 2/3 power of the base
  have hS23_lo : (1.3519 : ℝ) < (0.7 * (3 / 4 : ℝ) ^ (-(3 / 2) : ℝ) +
      0.3 * (closeness (some 5) SPREAD_CAP SPREAD_MIN CLOSENESS_FLOOR
        CLOSENESS_CURVATURE) ^ (-(3 / 2) : ℝ)) ^ ((2 / 3) : ℝ) := by
    have h1 : (1.3519 : ℝ) < (15722 / 10000 : ℝ) ^ (((2 : ℕ) : ℝ) / ((3 : ℕ) : ℝ)) := by
      apply lt_rpow_div_of_pow_lt (by norm_num : (0 : ℝ) ≤ 15722 / 10000) (by norm_num)
      norm_num
    rw [show (((2 : ℕ) : ℝ) / ((3 : ℕ) : ℝ)) = (2 / 3 : ℝ) by norm_num] at h1
    exact lt_trans h1 (Real.rpow_lt_rpow (by norm_num) hS_lo (by norm_num))
  have hS23_hi : (0.7 * (3 / 4 : ℝ) ^ (-(3 / 2) : ℝ) +
      0.3 * (closeness (some 5) SPREAD_CAP SPREAD_MIN CLOSENESS_FLOOR
        CLOSENESS_CURVATURE) ^ (-(3 / 2) : ℝ)) ^ ((2 / 3) : ℝ) < (1.3533 : ℝ) := by
    have h1 : (15741 / 10000 : ℝ) ^ (((2 : ℕ) : ℝ) / ((3 : ℕ) : ℝ)) < (1.3533 : ℝ) := by
      apply rpow_div_lt_of_pow_lt (by norm_num : (0 : ℝ) ≤ 15741 / 10000) (by norm_num)
        (by norm_num)
      norm_num
    rw [show (((2 : ℕ) : ℝ) / ((3 : ℕ) : ℝ)) = (2 / 3 : ℝ) by norm_num] at h1
    exact lt_trans (Real.rpow_lt_rpow (le_of_lt hS_pos) hS_hi (by norm_num)) h1
  have hS23_pos : (0 : ℝ) < (0.7 * (3 / 4 : ℝ) ^ (-(3 / 2) : ℝ) +
      0.3 * (closeness (some 5) SPREAD_CAP SPREAD_MIN CLOSENESS_FLOOR
        CLOSENESS_CURVATURE) ^ (-(3 / 2) : ℝ)) ^ ((2 / 3) : ℝ) :=
    Real.rpow_pos_of_pos hS_pos _
  have hU_eq : (0.7 * (3 / 4 : ℝ) ^ (-(3 / 2) : ℝ) +
      0.3 * (closeness (some 5) SPREAD_CAP SPREAD_MIN CLOSENESS_FLOOR
        CLOSENESS_CURVATURE) ^ (-(3 / 2) : ℝ)) ^ (-(2 / 3) : ℝ) =
      ((0.7 * (3 / 4 : ℝ) ^ (-(3 / 2) : ℝ) +
        0.3 * (closeness (some 5) SPREAD_CAP SPREAD_MIN CLOSENESS_FLOOR
          CLOSENESS_CURVATURE) ^ (-(3 / 2) : ℝ)) ^ ((2 / 3) : ℝ))⁻¹ :=
    Real.rpow_neg (le_of_lt hS_pos) _
  refine ⟨hq, hc_lo, hc_hi, ?_, ?_⟩
  · rw [huavg_eq, hU_eq]
    calc (10000 / 13533 : ℝ) = (1.3533 : ℝ)⁻¹ := by norm_num
    _ < _ := inv_lt_inv_of_lt hS23_pos hS23_hi
  · rw [huavg_eq, hU_eq]
    calc _ < (1.3519 : ℝ)⁻¹ := inv_lt_inv_of_lt (by norm_num) hS23_lo
    _ = (10000 / 13519 : ℝ) := by norm_num

/-- C1 counterexample: at `win_home=0.60, win_away=0.55, |spread|=5` with the
default parameters the index is ≈73.9, which falls below the 75 threshold, so
the label is not the second-highest bucket "Strong Watch". -/
theorem claim_C1_counterexample :
    (compute_watchability 0.6 0.55 (some 5) SIGMA).label ≠ "Strong Watch" := by
  obtain ⟨hq, hclo, hchi, hu_lo, hu_hi⟩ := c1_bounds
  have hlabel : (compute_watchability 0.6 0.55 (some 5) SIGMA).label =
      awi_label (100 * uavg (team_quality 0.6 0.55 QUALITY_FLOOR WIN_MAX WIN_MIN)
        (closeness (some 5) SPREAD_CAP SPREAD_MIN CLOSENESS_FLOOR CLOSENESS_CURVATURE)
        SIGMA RELATIVE_QUALITY_MULTIPLIER) := rfl
  rw [hlabel]
  unfold awi_label
  rw [if_neg (by linarith), if_neg (by linarith), if_pos (by linarith)]
  decide

/-- C1 amended: the example yields `team_quality = 0.75` exactly,
`closeness ≈ 0.72`, `awi ≈ 74` (it lies in (73.89, 73.97)), and since
73.9 < 75 the label is the middle bucket "Watchable" rather than the
second-highest bucket "Strong Watch". -/
theorem claim_C1_amended :
    (compute_watchability 0.6 0.55 (some 5) SIGMA).team_quality = 3 / 4 ∧
    |(compute_watchability 0.6 0.55 (some 5) SIGMA).closeness - 0.72| < 1 / 100 ∧
    |(compute_watchability 0.6 0.55 (some 5) SIGMA).awi - 74| < 15 / 100 ∧
    50 ≤ (compute_watchability 0.6 0.55 (some 5) SIGMA).awi ∧
    (compute_watchability 0.6 0.55 (some 5) SIGMA).awi < 75 ∧
    (compute_watchability 0.6 0.55 (some 5) SIGMA).label = "Watchable" := by
  obtain ⟨hq, hclo, hchi, hu_lo, hu_hi⟩ := c1_bounds
  have hqproj : (compute_watchability 0.6 0.55 (some 5) SIGMA).team_quality =
      team_quality 0.6 0.55 QUALITY_FLOOR WIN_MAX WIN_MIN := rfl
  have hcproj : (compute_watchability 0.6 0.55 (some 5) SIGMA).closeness =
      closeness (some 5) SPREAD_CAP SPREAD_MIN CLOSENESS_FLOOR CLOSENESS_CURVATURE := rfl
  have haproj : (compute_watchability 0.6 0.55 (some 5) SIGMA).awi =
      100 * uavg (team_quality 0.6 0.55 QUALITY_FLOOR WIN_MAX WIN_MIN)
        (closeness (some 5) SPREAD_CAP SPREAD_MIN CLOSENESS_FLOOR CLOSENESS_CURVATURE)
        SIGMA RELATIVE_QUALITY_MULTIPLIER := rfl
  have hlabel : (compute_watchability 0.6 0.55 (some 5) SIGMA).label =
      awi_label (100 * uavg (team_quality 0.6 0.55 QUALITY_FLOOR WIN_MAX WIN_MIN)
        (closeness (some 5) SPREAD_CAP SPREAD_MIN CLOSENESS_FLOOR CLOSENESS_CURVATURE)
        SIGMA RELATIVE_QUALITY_MULTIPLIER) := rfl
  refine ⟨by rw [hqproj]; exact hq, ?_, ?_, ?_, ?_, ?_⟩
  · rw [hcproj]
    rw [abs_lt]
    constructor <;> linarith
  · rw [haproj]
    rw [abs_lt]
    constructor <;> linarith
  · rw [haproj]; linarith
  · rw [haproj]; linarith
  · rw [hlabel]
    unfold awi_label
    rw [if_neg (by linarith), if_neg (by linarith), if_pos (by linarith)]

/-- Helper: the clamped quality component lies in [0.1, 1]. -/
theorem clampQ_mem (x : ℝ) : (0.1 : ℝ) ≤ clampQ x ∧ clampQ x ≤ 1 := by
  unfold clampQ clamp01_floor QUALITY_FLOOR COMPONENT_CAP
  constructor
  · exact le_min (le_max_left _ _) (by norm_num)
  · calc min (max 0.1 (min 1 x)) 1.0 ≤ (1.0 : ℝ) := min_le_right _ _
    _ = 1 := by norm_num

/-- Helper: the clamped closeness component lies in [0.1, 1]. -/
theorem clampC_mem (x : ℝ) : (0.1 : ℝ) ≤ clampC x ∧ clampC x ≤ 1 := by
  unfold clampC clamp01_floor CLOSENESS_FLOOR COMPONENT_CAP
  constructor
  · exact le_min (le_max_left _ _) (by norm_num)
  · calc min (max 0.1 (min 1 x)) 1.0 ≤ (1.0 : ℝ) := min_le_right _ _
    _ = 1 := by norm_num

/-- Helper: for every input and elasticity the CES utility lies in [0.1, 1]
(the component floors and caps force this in every branch). -/
theorem uavg_mem (q c σ : ℝ) :
    (0.1 : ℝ) ≤ uavg q c σ RELATIVE_QUALITY_MULTIPLIER ∧
    uavg q c σ RELATIVE_QUALITY_MULTIPLIER ≤ 1 := by
  obtain ⟨hq1, hq2⟩ := clampQ_mem q
  obtain ⟨hc1, hc2⟩ := clampC_mem c
  have hqpos : (0 : ℝ) < clampQ q := lt_of_lt_of_le (by norm_num) hq1
  have hcpos : (0 : ℝ) < clampC c := lt_of_lt_of_le (by norm_num) hc1
  by_cases hσ : σ = 0
  · subst hσ
    simp only [uavg, RELATIVE_QUALITY_MULTIPLIER, if_true]
    exact ⟨le_min hq1 hc1, le_trans (min_le_left _ _) hq2⟩
  · simp only [uavg, RELATIVE_QUALITY_MULTIPLIER]
    rw [if_neg hσ]
    by_cases hρ : (σ - 1) / σ = 0
    · rw [if_pos hρ]
      have hxnn : (0 : ℝ) ≤ clampQ q * clampC c := le_of_lt (mul_pos hqpos hcpos)
      have hx1 : (0.01 : ℝ) ≤ clampQ q * clampC c := by nlinarith
      have hx2 : clampQ q * clampC c ≤ 1 := by nlinarith
      have hsq : ((clampQ q * clampC c) ^ ((1 : ℝ) / 2)) ^ (2 : ℕ) =
          (clampQ q * clampC c) ^ (1 : ℕ) := by
        rw [show ((1 : ℝ) / 2) = (((1 : ℕ) : ℝ) / ((2 : ℕ) : ℝ)) by norm_num]
        exact rpow_div_nat_pow hxnn 1 2 (by norm_num)
      constructor
      · apply le_of_pow_le_pow_left (by norm_num : (2 : ℕ) ≠ 0)
          (Real.rpow_nonneg hxnn _)
        rw [hsq, pow_one]
        calc (0.1 : ℝ) ^ (2 : ℕ) = 0.01 := by norm_num
        _ ≤ _ := hx1
      · apply le_of_pow_le_pow_left (by norm_num : (2 : ℕ) ≠ 0) (by norm_num : (0:ℝ) ≤ 1)
        rw [hsq, pow_one]
        calc clampQ q * clampC c ≤ 1 := hx2
        _ = (1 : ℝ) ^ (2 : ℕ) := by norm_num
    · rw [if_neg hρ]
      have hpow1 : ((0.1 : ℝ) ^ ((σ - 1) / σ)) ^ ((1 : ℝ) / ((σ - 1) / σ)) = 0.1 := by
        rw [← Real.rpow_mul (by norm_num : (0 : ℝ) ≤ 0.1), mul_one_div, div_self hρ,
          Real.rpow_one]
      rcases lt_or_gt_of_ne hρ with hneg | hpos
      · -- negative exponent branch
        have hqup : (clampQ q) ^ ((σ - 1) / σ) ≤ (0.1 : ℝ) ^ ((σ - 1) / σ) :=
          rpow_anti_of_nonpos (by norm_num) hq1 (le_of_lt hneg)
        have hcup : (clampC c) ^ ((σ - 1) / σ) ≤ (0.1 : ℝ) ^ ((σ - 1) / σ) :=
          rpow_anti_of_nonpos (by norm_num) hc1 (le_of_lt hneg)
        have hqdn : (1 : ℝ) ≤ (clampQ q) ^ ((σ - 1) / σ) := by
          have := rpow_anti_of_nonpos hqpos hq2 (le_of_lt hneg)
          rwa [Real.one_rpow] at this
        have hcdn : (1 : ℝ) ≤ (clampC c) ^ ((σ - 1) / σ) := by
          have := rpow_anti_of_nonpos hcpos hc2 (le_of_lt hneg)
          rwa [Real.one_rpow] at this
        have hS1 : (1 : ℝ) ≤ 0.7 * (clampQ q) ^ ((σ - 1) / σ) +
            (1 - 0.7) * (clampC c) ^ ((σ - 1) / σ) := by linarith
        have hS2 : 0.7 * (clampQ q) ^ ((σ - 1) / σ) +
            (1 - 0.7) * (clampC c) ^ ((σ - 1) / σ) ≤ (0.1 : ℝ) ^ ((σ - 1) / σ) := by
          linarith
        have hSpos : (0 : ℝ) < 0.7 * (clampQ q) ^ ((σ - 1) / σ) +
            (1 - 0.7) * (clampC c) ^ ((σ - 1) / σ) := lt_of_lt_of_le one_pos hS1
        have hinvneg : (1 : ℝ) / ((σ - 1) / σ) ≤ 0 := le_of_lt (one_div_neg.mpr hneg)
        constructor
        · have h5 := rpow_anti_of_nonpos hSpos hS2 hinvneg
          rwa [hpow1] at h5
        · have h5 := rpow_anti_of_nonpos one_pos hS1 hinvneg
          rwa [Real.one_rpow] at h5
      · -- positive exponent branch
        have hqup : (clampQ q) ^ ((σ - 1) / σ) ≤ 1 :=
          Real.rpow_le_one (le_of_lt hqpos) hq2 (le_of_lt hpos)
        have hcup : (clampC c) ^ ((σ - 1) / σ) ≤ 1 :=
          Real.rpow_le_one (le_of_lt hcpos) hc2 (le_of_lt hpos)
        have hqdn : (0.1 : ℝ) ^ ((σ - 1) / σ) ≤ (clampQ q) ^ ((σ - 1) / σ) :=
          Real.rpow_le_rpow (by norm_num) hq1 (le_of_lt hpos)
        have hcdn : (0.1 : ℝ) ^ ((σ - 1) / σ) ≤ (clampC c) ^ ((σ - 1) / σ) :=
          Real.rpow_le_rpow (by norm_num) hc1 (le_of_lt hpos)
        have hS1 : (0.1 : ℝ) ^ ((σ - 1) / σ) ≤ 0.7 * (clampQ q) ^ ((σ - 1) / σ) +
            (1 - 0.7) * (clampC c) ^ ((σ - 1) / σ) := by linarith
        have hS2 : 0.7 * (clampQ q) ^ ((σ - 1) / σ) +
            (1 - 0.7) * (clampC c) ^ ((σ - 1) / σ) ≤ 1 := by linarith
        have htpos : (0 : ℝ) < (0.1 : ℝ) ^ ((σ - 1) / σ) :=
          Real.rpow_pos_of_pos (by norm_num) _
        have hSnn : (0 : ℝ) ≤ 0.7 * (clampQ q) ^ ((σ - 1) / σ) +
            (1 - 0.7) * (clampC c) ^ ((σ - 1) / σ) := le_of_lt (lt_of_lt_of_le htpos hS1)
        have hinvpos : (0 : ℝ) ≤ (1 : ℝ) / ((σ - 1) / σ) := le_of_lt (one_div_pos.mpr hpos)
        constructor
        · have h5 := Real.rpow_le_rpow (le_of_lt htpos) hS1 hinvpos
          rwa [hpow1] at h5
        · exact Real.rpow_le_one hSnn hS2 hinvpos

/-- C2 amended: `awi = 100·uavg` with the default parameters; away from the
degenerate elasticities `uavg` is the weighted CES form on the clamped
components; `σ = 0` gives `min(q, c)`; `ρ = 0` (that is `σ = 1`) gives the
unweighted geometric mean `(q·c)^(1/2)` — which, with quality weight 0.7, is
not the `ρ→0` limit of the CES form (see the counterexample); and the index
always lies in [10, 100]. -/
theorem claim_C2_amended (q c σ : ℝ) :
    awi q c = 100 * uavg q c SIGMA RELATIVE_QUALITY_MULTIPLIER ∧
    (σ ≠ 0 → (σ - 1) / σ ≠ 0 →
      uavg q c σ RELATIVE_QUALITY_MULTIPLIER =
        (RELATIVE_QUALITY_MULTIPLIER * (clampQ q) ^ ((σ - 1) / σ) +
          (1 - RELATIVE_QUALITY_MULTIPLIER) * (clampC c) ^ ((σ - 1) / σ)) ^
          ((1 : ℝ) / ((σ - 1) / σ))) ∧
    uavg q c 0 RELATIVE_QUALITY_MULTIPLIER = min (clampQ q) (clampC c) ∧
    (σ = 1 → uavg q c σ RELATIVE_QUALITY_MULTIPLIER =
      (clampQ q * clampC c) ^ ((1 : ℝ) / 2)) ∧
    10 ≤ 100 * uavg q c σ RELATIVE_QUALITY_MULTIPLIER ∧
    100 * uavg q c σ RELATIVE_QUALITY_MULTIPLIER ≤ 100 ∧
    10 ≤ awi q c ∧ awi q c ≤ 100 := by
  obtain ⟨hm1, hm2⟩ := uavg_mem q c σ
  obtain ⟨hs1, hs2⟩ := uavg_mem q c SIGMA
  refine ⟨rfl, fun h1 h2 => ?_, ?_, fun h1 => ?_, by linarith, by linarith, ?_, ?_⟩
  · simp only [uavg]
    rw [if_neg h1, if_neg h2]
  · simp only [uavg, if_true]
  · subst h1
    simp only [uavg]
    rw [if_neg (by norm_num : (1 : ℝ) ≠ 0)]
    rw [show ((1 : ℝ) - 1) / 1 = 0 by norm_num]
    rw [if_pos rfl]
  · show 10 ≤ 100 * uavg q c SIGMA RELATIVE_QUALITY_MULTIPLIER
    linarith
  · show 100 * uavg q c SIGMA RELATIVE_QUALITY_MULTIPLIER ≤ 100
    linarith

/-- Witness for C2's amended statement at concrete inputs. -/
theorem claim_C2_amended_witness :
    uavg 0.8 0.5 2 RELATIVE_QUALITY_MULTIPLIER =
      (RELATIVE_QUALITY_MULTIPLIER * (clampQ 0.8) ^ (((2 : ℝ) - 1) / 2) +
        (1 - RELATIVE_QUALITY_MULTIPLIER) * (clampC 0.5) ^ (((2 : ℝ) - 1) / 2)) ^
        ((1 : ℝ) / (((2 : ℝ) - 1) / 2)) ∧
    uavg 0.8 0.5 1 RELATIVE_QUALITY_MULTIPLIER = (clampQ 0.8 * clampC 0.5) ^ ((1 : ℝ) / 2) ∧
    10 ≤ awi 0.8 0.5 ∧ awi 0.8 0.5 ≤ 100 := by
  refine ⟨?_, ?_, ?_, ?_⟩
  · exact (claim_C2_amended 0.8 0.5 2).2.1 (by norm_num) (by norm_num)
  · exact (claim_C2_amended 0.8 0.5 1).2.2.2.1 rfl
  · exact (claim_C2_amended 0.8 0.5 1).2.2.2.2.2.2.1
  · exact (claim_C2_amended 0.8 0.5 1).2.2.2.2.2.2.2

/-- C2 counterexample: with quality weight 0.7 the value of the `ρ = 0`
branch, the unweighted geometric mean `(q·c)^(1/2)`, is not the `ρ→0` (i.e.
`σ→1`) limit of the CES formula.  At `q = 1, c = 0.1` the branch value is
`0.1^(1/2) < 0.32`, while weighted AM-GM forces the CES value above
`0.1^(0.3) > 0.46` for every `σ > 1`, so no convergence to the branch value
is possible along the punctured neighbourhood. -/
theorem claim_C2_counterexample :
    ¬ Filter.Tendsto (fun σ : ℝ => uavg 1 0.1 σ RELATIVE_QUALITY_MULTIPLIER)
      (nhdsWithin 1 {σ : ℝ | σ ≠ 1})
      (nhds ((clampQ 1 * clampC 0.1) ^ ((1 : ℝ) / 2))) := by
  have hQ1 : clampQ 1 = 1 := by
    unfold clampQ clamp01_floor QUALITY_FLOOR COMPONENT_CAP
    norm_num [min_def, max_def]
  have hC01 : clampC 0.1 = 0.1 := by
    unfold clampC clamp01_floor CLOSENESS_FLOOR COMPONENT_CAP
    norm_num [min_def, max_def]
  have hL_eq : (clampQ 1 * clampC 0.1) ^ ((1 : ℝ) / 2) =
      (0.1 : ℝ) ^ (((1 : ℕ) : ℝ) / ((2 : ℕ) : ℝ)) := by
    rw [hQ1, hC01, one_mul, show ((1 : ℝ) / 2) = (((1 : ℕ) : ℝ) / ((2 : ℕ) : ℝ)) by norm_num]
  have hL_lt : (0.1 : ℝ) ^ (((1 : ℕ) : ℝ) / ((2 : ℕ) : ℝ)) < 0.32 := by
    apply rpow_div_lt_of_pow_lt (by norm_num : (0 : ℝ) ≤ 0.1) (by norm_num) (by norm_num)
    norm_num
  have hlow : ∀ σ ∈ Set.Ioi (1 : ℝ),
      (0.46 : ℝ) ≤ uavg 1 0.1 σ RELATIVE_QUALITY_MULTIPLIER := by
    intro σ hσ
    have hσ1 : (1 : ℝ) < σ := hσ
    have hσ0 : (0 : ℝ) < σ := lt_trans one_pos hσ1
    have hρpos : 0 < (σ - 1) / σ := div_pos (by linarith) hσ0
    have hρne : (σ - 1) / σ ≠ 0 := ne_of_gt hρpos
    have hval : uavg 1 0.1 σ RELATIVE_QUALITY_MULTIPLIER =
        (0.7 * (1 : ℝ) ^ ((σ - 1) / σ) + (1 - 0.7) * (0.1 : ℝ) ^ ((σ - 1) / σ)) ^
          ((1 : ℝ) / ((σ - 1) / σ)) := by
      simp only [uavg, RELATIVE_QUALITY_MULTIPLIER]
      rw [if_neg (ne_of_gt hσ0), if_neg hρne, hQ1, hC01]
    rw [hval, Real.one_rpow, mul_one, show (1 : ℝ) - 0.7 = 0.3 by norm_num]
    have hXpos : (0 : ℝ) < (0.1 : ℝ) ^ ((σ - 1) / σ) :=
      Real.rpow_pos_of_pos (by norm_num) _
    have hgm := Real.geom_mean_le_arith_mean2_weighted (by norm_num : (0 : ℝ) ≤ 0.7)
      (by norm_num : (0 : ℝ) ≤ 0.3) (by norm_num : (0 : ℝ) ≤ 1) (le_of_lt hXpos)
      (by norm_num : (0.7 : ℝ) + 0.3 = 1)
    rw [Real.one_rpow, one_mul, mul_one] at hgm
    have hstep := Real.rpow_le_rpow (Real.rpow_nonneg (le_of_lt hXpos) _) hgm
      (le_of_lt (one_div_pos.mpr hρpos))
    have hcollapse : (((0.1 : ℝ) ^ ((σ - 1) / σ)) ^ (0.3 : ℝ)) ^ ((1 : ℝ) / ((σ - 1) / σ)) =
        (0.1 : ℝ) ^ (0.3 : ℝ) := by
      rw [← Real.rpow_mul (by norm_num : (0 : ℝ) ≤ 0.1),
        ← Real.rpow_mul (by norm_num : (0 : ℝ) ≤ 0.1)]
      congr 1
      field_simp
      rw [mul_comm, mul_div_assoc, div_self (sub_ne_zero.mpr (ne_of_gt hσ1)), mul_one]
    rw [hcollapse] at hstep
    have h03 : (0.46 : ℝ) ≤ (0.1 : ℝ) ^ (0.3 : ℝ) := by
      rw [show (0.3 : ℝ) = (((3 : ℕ) : ℝ) / ((10 : ℕ) : ℝ)) by norm_num]
      apply le_of_lt
      apply lt_rpow_div_of_pow_lt (by norm_num : (0 : ℝ) ≤ 0.1) (by norm_num)
      norm_num
    exact le_trans h03 hstep
  intro hT
  have hsub : Set.Ioi (1 : ℝ) ⊆ {σ : ℝ | σ ≠ 1} := fun x hx => ne_of_gt hx
  have hT2 := hT.mono_left (nhdsWithin_mono 1 hsub)
  have hLlt : (clampQ 1 * clampC 0.1) ^ ((1 : ℝ) / 2) < 0.46 := by
    rw [hL_eq]
    exact lt_trans hL_lt (by norm_num)
  have hev1 : ∀ᶠ σ in nhdsWithin (1 : ℝ) (Set.Ioi 1),
      uavg 1 0.1 σ RELATIVE_QUALITY_MULTIPLIER < 0.46 := hT2.eventually_lt_const hLlt
  have hev2 : ∀ᶠ σ in nhdsWithin (1 : ℝ) (Set.Ioi 1),
      (0.46 : ℝ) ≤ uavg 1 0.1 σ RELATIVE_QUALITY_MULTIPLIER :=
    eventually_nhdsWithin_of_forall hlow
  obtain ⟨σ, h1, h2⟩ := (hev1.and hev2).exists
  linarith
